import Mathlib

/-!
Verification of the multi-tier job-scraper pipeline (LinkedIn/foundit/indeed/naukri
scraper repository).

This file shallowly embeds the parts of the Python source that the specification's
claims are about:

* the post-hoc filter engine of `browser_executor.py`
  (`_apply_filters_to_jobs`, `_is_remote_job`, `_is_recent_job`,
  `_matches_experience`, `_meets_salary_requirement`);
* the extraction layer of `job_extractor.py`
  (`extract_jobs_from_html`, `extract_structured_data`, `extract_job_from_jsonld`,
  `clean_text`, `extract_domain`);
* the lightweight scrapers (`ultra_light_scraper.py`, `simple_scraper.py`);
* the fallback orchestrator of `app.py` (`run_job_scraper`);
* the static sample tier (`sample_jobs.py`).

Embedding conventions:

* A Python job dictionary is an association list of string fields (`Job`).
  Dictionary access `job[k]`, `k in job` and `job.get(k, '')` are embedded by
  first-match lookup; truthiness of a string is non-emptiness.
* External HTML parsing (BeautifulSoup / Playwright queries) is abstracted: a
  parsed page is represented by the results of exactly the queries the source
  performs (the text of the element each selector cascade finds, the decoded
  JSON-LD blocks, and the raw card text).  What the source then does with those
  results is embedded literally.
* The two regular expressions used by the filter engine and the relative-date
  regex are implemented as character-level matchers with Python `re.search`
  semantics (leftmost match, ordered alternation, greedy quantifiers) for the
  three concrete patterns in the source.  Whitespace and case folding are the
  ASCII fragment, which covers every string the source matches against.
* Python numbers that flow through `float` arithmetic are modelled as rationals;
  the divisions and multiplications performed (by 100) are exact at the
  magnitudes compared, so this is faithful for the comparisons made.
* Python functions that can raise are embedded with `Option`/`Except`; total
  code is embedded by total functions.
-/

/-! ## Python string primitives -/

/-- Python `\s` (ASCII fragment): the whitespace characters recognised by
`str.strip`, `\s+` and `\s*` in the source's regexes. -/
def pyIsSpace (c : Char) : Bool :=
  c = ' ' || c = '\t' || c = '\n' || c = '\r' || c = '\x0b' || c = '\x0c'

/-- Contiguous-sublist test on character lists. -/
def charsInfix (needle : List Char) : List Char → Bool
  | [] => needle.isEmpty
  | c :: rest => needle.isPrefixOf (c :: rest) || charsInfix needle rest

/-- Python substring test `needle in hay` on strings. -/
def strIn (needle hay : String) : Bool :=
  charsInfix needle.data hay.data

/-- Python `str.strip()`: drop leading and trailing whitespace. -/
def pyStrip (s : String) : String :=
  ⟨((s.data.dropWhile pyIsSpace).reverse.dropWhile pyIsSpace).reverse⟩

/-- Helper for `re.sub(r'\s+', ' ', text)`: collapse every maximal whitespace
run to a single space.  The boolean records whether the previous character was
part of a whitespace run. -/
def collapseWsAux : Bool → List Char → List Char
  | _, [] => []
  | prevWs, c :: rest =>
    if pyIsSpace c then
      if prevWs then collapseWsAux true rest
      else ' ' :: collapseWsAux true rest
    else c :: collapseWsAux false rest

/-- Python `re.sub(r'\s+', ' ', text)`. -/
def collapseWs (s : String) : String :=
  ⟨collapseWsAux false s.data⟩

/-- Python `\w` (ASCII fragment): word characters for the `[^\w\s\-\.,]`
character class in `JobExtractor.clean_text`. -/
def pyIsWordChar (c : Char) : Bool :=
  c.isAlpha || c.isDigit || c = '_'

/-- Python `str.startswith(pre)`. -/
def pyStartsWith (s pre : String) : Bool :=
  pre.data.isPrefixOf s.data

/-- Split a character list at every occurrence of a separator character,
keeping empty pieces (Python `str.split` with a one-character separator). -/
def splitOnCharAux (sep : Char) : List Char → List Char → List String
  | [], acc => [⟨acc.reverse⟩]
  | c :: rest, acc =>
    if c = sep then ⟨acc.reverse⟩ :: splitOnCharAux sep rest []
    else splitOnCharAux sep rest (c :: acc)

/-- Python `str.split('\n')` (keeps empty pieces). -/
def pySplitNl (s : String) : List String :=
  splitOnCharAux '\n' s.data []

/-- Python `str.split('/')` (keeps empty pieces). -/
def pySplitSlash (s : String) : List String :=
  splitOnCharAux '/' s.data []

/-- Helper for whitespace splitting: accumulate the current word. -/
def pySplitWsAux : List Char → List Char → List String
  | [], acc => if acc.isEmpty then [] else [⟨acc.reverse⟩]
  | c :: rest, acc =>
    if pyIsSpace c then
      if acc.isEmpty then pySplitWsAux rest []
      else ⟨acc.reverse⟩ :: pySplitWsAux rest []
    else pySplitWsAux rest (c :: acc)

/-- Python `str.split()` with no argument: split on whitespace runs, dropping
empty pieces. -/
def pySplitWs (s : String) : List String :=
  pySplitWsAux s.data []

/-- Python `str.find(needle)` returning the first character index at which
`needle` occurs, or `none` for `-1`. -/
def pyFindAux (needle : List Char) : List Char → Nat → Option Nat
  | [], i => if needle.isEmpty then some i else none
  | c :: rest, i =>
    if needle.isPrefixOf (c :: rest) then some i
    else pyFindAux needle rest (i + 1)

/-- Python `hay.find(needle)` as an optional index. -/
def pyFind (hay needle : String) : Option Nat :=
  pyFindAux needle.data hay.data 0

/-- Value of a digit character. -/
def digitVal (c : Char) : Nat := c.toNat - '0'.toNat

/-- Numeric value of a nonempty digit run (`int(group)` on a `\d+` capture). -/
def digitsToNat (ds : List Char) : Nat :=
  ds.foldl (fun n c => n * 10 + digitVal c) 0

/-- Python `str.lower` on one character (ASCII fragment). -/
def pyCharLower (c : Char) : Char :=
  if 65 <= c.toNat && c.toNat <= 90 then Char.ofNat (c.toNat + 32) else c

/-- Python `str.lower` (ASCII fragment), implemented over the character list
so that it reduces in the kernel. -/
def String.pyLower (s : String) : String :=
  ⟨s.data.map pyCharLower⟩

/-! ## JobRecord data model

A `JobRecord` is a Python dict mapping field names to strings; field naming is
heterogeneous across tiers (`date` / `date_posted` / `posted_date` …), so
consumers probe synonym keys.  Keys are unique by construction in every record
the source builds.  -/

/-- A job record: the association list of its fields, in insertion order. -/
structure Job where
  fields : List (String × String)
deriving DecidableEq

/-- Dictionary lookup `job[k]` / `job.get(k)`: first matching key. -/
def Job.get? (j : Job) (k : String) : Option String :=
  (j.fields.find? (fun kv => kv.1 == k)).map (fun kv => kv.2)

/-- Python `job.get(k, '')`. -/
def Job.getD (j : Job) (k : String) : String :=
  (j.get? k).getD ""

/-- Python `k in job`. -/
def Job.hasField (j : Job) (k : String) : Bool :=
  (j.get? k).isSome

/-- The minimum-validity invariant of the spec (section 3): a non-empty title
and at least one other non-empty field. -/
def minValidJob (j : Job) : Bool :=
  (j.getD "title" != "") && j.fields.any (fun kv => kv.1 != "title" && kv.2 != "")

/-! ## Remote predicate — `BrowserExecutor._is_remote_job` -/

/-- The fixed synonym set of `_is_remote_job`. -/
def remoteTerms : List String :=
  ["remote", "work from home", "wfh", "virtual", "telecommute", "anywhere"]

/-- `BrowserExecutor._is_remote_job`: true if any remote term occurs in the
lowered text of a present, non-empty `title`, `description` or `location`
field. -/
def isRemoteJob (job : Job) : Bool :=
  ["title", "description", "location"].any fun field =>
    match job.get? field with
    | some v => v != "" && remoteTerms.any (fun term => strIn term v.pyLower)
    | none => false

/-! ## Relative-date regex — `(\d+)\s*(hour|day|week|month)s?\s*ago`

Implemented as a leftmost-position scanner.  The digit run is taken greedily
(nothing after it can consume a digit, so greediness is exact); the optional
`s` is tried greedily with the one-step backtrack Python performs. -/

/-- The unit alternation of the relative-date regex, in source order. -/
def timeUnits : List String := ["hour", "day", "week", "month"]

/-- Match the `s?\s*ago` tail of the relative-date regex: greedy optional `s`
with backtracking. -/
def agoTail (l : List Char) : Bool :=
  (match l with
   | 's' :: r => "ago".data.isPrefixOf (r.dropWhile pyIsSpace)
   | _ => false)
  || "ago".data.isPrefixOf (l.dropWhile pyIsSpace)

/-- Try to match the whole relative-date regex at the start of `l`, returning
the numeric value and the unit (groups 1 and 2). -/
def timeAgoMatchAt (l : List Char) : Option (Nat × String) :=
  let ds := l.takeWhile Char.isDigit
  if ds.isEmpty then none
  else
    let rest := (l.drop ds.length).dropWhile pyIsSpace
    timeUnits.findSome? fun u =>
      if u.data.isPrefixOf rest && agoTail (rest.drop u.data.length) then
        some (digitsToNat ds, u)
      else none

/-- `re.search` for the relative-date regex: first position with a match. -/
def searchTimeAgo : List Char → Option (Nat × String)
  | [] => none
  | c :: rest =>
    match timeAgoMatchAt (c :: rest) with
    | some r => some r
    | none => searchTimeAgo rest

/-! ## Recency predicate — `BrowserExecutor._is_recent_job` -/

/-- The date field synonyms probed by `_is_recent_job`, in order. -/
def dateProbeFields : List String := ["date_posted", "posted_date", "date"]

/-- The body of `_is_recent_job` on the lowered, non-empty date text: each
early `return True` is a disjunct; the regex block returns true exactly when
the matched amount converts to at most `hours`; an unmatched text defaults to
true. -/
def isRecentText (t : String) (hours : Nat) : Bool :=
  (strIn "just now" t || strIn "today" t) ||
  (strIn "yesterday" t && decide (24 ≤ hours)) ||
  (strIn "this week" t && decide (168 ≤ hours)) ||
  (strIn "this month" t && decide (720 ≤ hours)) ||
  (match searchTimeAgo t.data with
   | some (value, unit) =>
     (unit == "hour" && decide (value ≤ hours)) ||
     (unit == "day" && decide (value * 24 ≤ hours)) ||
     (unit == "week" && decide (value * 168 ≤ hours)) ||
     (unit == "month" && decide (value * 720 ≤ hours))
   | none => true)

/-- `BrowserExecutor._is_recent_job`: probe the date field synonyms; a missing
or empty date field defaults to true. -/
def isRecentJob (job : Job) (hours : Nat) : Bool :=
  match dateProbeFields.find? (fun f => job.hasField f) with
  | none => true
  | some f =>
    let v := job.getD f
    if v == "" then true
    else isRecentText v.pyLower hours

/-! ## Experience predicate — `BrowserExecutor._matches_experience` -/

/-- `BrowserExecutor._matches_experience`: keyword checks on the explicit
`experience_level` field, then on `title`/`description`/`experience`; every
early return in the source returns `True`, and the final statement is
`return True`, rendered here as the trailing `|| true`. -/
def matchesExperience (job : Job) (level : String) : Bool :=
  (match job.get? "experience_level" with
   | some v =>
     v != "" &&
       (let e := v.pyLower
        (level == "entry" &&
          ["entry", "junior", "fresher", "trainee", "0-1", "0-2"].any
            (fun term => strIn term e)) ||
        (level == "mid" &&
          ["mid", "intermediate", "associate", "2-5", "3-5"].any
            (fun term => strIn term e)) ||
        (level == "senior" &&
          ["senior", "lead", "manager", "principal", "5+", "7+"].any
            (fun term => strIn term e)))
   | none => false) ||
  (["title", "description", "experience"].any fun field =>
    match job.get? field with
    | some v =>
      v != "" &&
        (let e := v.pyLower
         (level == "entry" &&
           ["entry", "junior", "fresher", "trainee", "graduate", "0-1", "0-2"].any
             (fun term => strIn term e)) ||
         (level == "mid" &&
           ["mid", "intermediate", "associate", "2-5", "3-5"].any
             (fun term => strIn term e)) ||
         (level == "senior" &&
           ["senior", "lead", "manager", "principal", "head", "5+", "7+"].any
             (fun term => strIn term e)))
    | none => false) ||
  true

/-! ## Salary-text regex — `(\d+(?:\.\d+)?)\s*-?\s*(\d+(?:\.\d+)?)?\s*(lpa|l|lakh|lakhs|k|cr|crore)`

Used by `_meets_salary_requirement` on the job's salary text.  The greedy
choices of this pattern are exact: whenever a greedy parse fails at a position,
every backtracked parse at the same position fails as well (the characters
following each quantifier are disjoint from the ones it consumes), so a
maximal-munch matcher implements `re.search` for this pattern. -/

/-- Parse `\d+(?:\.\d+)?` greedily, returning the rational value (Python
`float(...)` modelled exactly) and the remaining input. -/
def parseNumberAt (l : List Char) : Option (ℚ × List Char) :=
  let ds := l.takeWhile Char.isDigit
  if ds.isEmpty then none
  else
    let intVal : ℚ := (digitsToNat ds : ℚ)
    let rest := l.drop ds.length
    match rest with
    | '.' :: r2 =>
      let fs := r2.takeWhile Char.isDigit
      if fs.isEmpty then some (intVal, rest)
      else some (intVal + (digitsToNat fs : ℚ) / ((10 : ℚ) ^ fs.length), r2.drop fs.length)
    | _ => some (intVal, rest)

/-- The unit alternation of the salary-text regex, in source order (`l` comes
before `lakh`, so a leading `l` always captures as `l`). -/
def salaryTextUnits : List String := ["lpa", "l", "lakh", "lakhs", "k", "cr", "crore"]

/-- Try the whole salary-text regex at the start of `l`, returning group 1
(the lower bound) and group 3 (the unit). -/
def salaryTextMatchAt (l : List Char) : Option (ℚ × String) :=
  match parseNumberAt l with
  | none => none
  | some (n1, r1) =>
    let r2 := r1.dropWhile pyIsSpace
    let r3 := match r2 with
      | '-' :: t => t
      | _ => r2
    let r4 := r3.dropWhile pyIsSpace
    let r5 := match parseNumberAt r4 with
      | some (_, r) => r
      | none => r4
    let r6 := r5.dropWhile pyIsSpace
    (salaryTextUnits.findSome? fun u =>
      if u.data.isPrefixOf r6 then some u else none).map (fun u => (n1, u))

/-- `re.search` for the salary-text regex. -/
def searchSalaryText : List Char → Option (ℚ × String)
  | [] => none
  | c :: rest =>
    match salaryTextMatchAt (c :: rest) with
    | some r => some r
    | none => searchSalaryText rest

/-! ## Salary-floor filter regex —
`(salary|compensation)\s*(>|above|over|more than)\s*(\d+)\s*(k|l|lpa|lakh|cr|crore)`

Used by `_apply_filters_to_jobs` on the lowered filter phrase. -/

/-- The comparator alternation of the salary-floor regex, in source order. -/
def salaryCompareWords : List String := [">", "above", "over", "more than"]

/-- The unit alternation of the salary-floor regex, in source order. -/
def salaryFilterUnits : List String := ["k", "l", "lpa", "lakh", "cr", "crore"]

/-- Try the whole salary-floor regex at the start of `l`, returning group 3
(the amount) and group 4 (the unit). -/
def salaryFilterMatchAt (l : List Char) : Option (Nat × String) :=
  (["salary", "compensation"].findSome? fun kw =>
    if kw.data.isPrefixOf l then some (l.drop kw.data.length) else none).bind fun r1 =>
  let r2 := r1.dropWhile pyIsSpace
  (salaryCompareWords.findSome? fun cp =>
    if cp.data.isPrefixOf r2 then some (r2.drop cp.data.length) else none).bind fun r3 =>
  let r4 := r3.dropWhile pyIsSpace
  let ds := r4.takeWhile Char.isDigit
  if ds.isEmpty then none
  else
    let r5 := (r4.drop ds.length).dropWhile pyIsSpace
    (salaryFilterUnits.findSome? fun u =>
      if u.data.isPrefixOf r5 then some u else none).map (fun u => (digitsToNat ds, u))

/-- `re.search` for the salary-floor regex. -/
def searchSalaryFilter : List Char → Option (Nat × String)
  | [] => none
  | c :: rest =>
    match salaryFilterMatchAt (c :: rest) with
    | some r => some r
    | none => searchSalaryFilter rest

/-- The normalisation of `_apply_filters_to_jobs` lines 356-360: thousands are
divided by 100, crores multiplied by 100, everything else is already in
lakhs. -/
def normalizeSalaryAmount (amount : Nat) (unit : String) : ℚ :=
  if unit == "k" || unit == "thousand" then (amount : ℚ) / 100
  else if unit == "cr" || unit == "crore" then (amount : ℚ) * 100
  else (amount : ℚ)

/-- The salary floor a filter phrase normalises to: the phrase is lowered, the
salary-floor regex is searched, and the captured amount is converted to
lakhs (the parsing and conversion steps of `_apply_filters_to_jobs`
lines 352-360). -/
def salaryFloorOfFilter (filterItem : String) : Option ℚ :=
  (searchSalaryFilter filterItem.pyLower.data).map fun p =>
    normalizeSalaryAmount p.1 p.2

/-! ## Salary predicate — `BrowserExecutor._meets_salary_requirement` -/

/-- `BrowserExecutor._meets_salary_requirement`: probe `salary` then
`salary_range`; a missing, empty or unparseable salary defaults to true;
otherwise the extracted lower bound, converted to lakhs, must reach the
floor. -/
def meetsSalaryRequirement (job : Job) (minLakhs : ℚ) : Bool :=
  match ["salary", "salary_range"].find? (fun f => job.hasField f) with
  | none => true
  | some f =>
    let v := job.getD f
    if v == "" then true
    else
      match searchSalaryText v.pyLower.data with
      | some (n, unit) =>
        let minValue : ℚ :=
          if unit == "k" || unit == "thousand" then n / 100
          else if unit == "cr" || unit == "crore" then n * 100
          else n
        decide (minLakhs ≤ minValue)
      | none => true

/-! ## The filter pass — `BrowserExecutor._apply_filters_to_jobs`

Each filter phrase is processed by four sequential category blocks; each block
either narrows the current list with `List.filter` or leaves it unchanged. -/

/-- The remote trigger terms of the filter pass (line 330). -/
def remoteFilterTerms : List String := ["remote", "work from home", "wfh"]

/-- Remote block of the filter pass (lines 330-331). -/
def remoteStage (fl : String) (jobs : List Job) : List Job :=
  if remoteFilterTerms.any (fun t => strIn t fl) then jobs.filter isRemoteJob
  else jobs

/-- Recency block of the filter pass (lines 334-341). -/
def recencyStage (fl : String) (jobs : List Job) : List Job :=
  if strIn "last 24 hours" fl || strIn "today" fl then
    jobs.filter (fun j => isRecentJob j 24)
  else if strIn "last 3 days" fl then jobs.filter (fun j => isRecentJob j 72)
  else if strIn "last 7 days" fl || strIn "week" fl then
    jobs.filter (fun j => isRecentJob j 168)
  else if strIn "last 30 days" fl || strIn "month" fl then
    jobs.filter (fun j => isRecentJob j 720)
  else jobs

/-- Experience block of the filter pass (lines 344-349). -/
def experienceStage (fl : String) (jobs : List Job) : List Job :=
  if strIn "entry" fl || strIn "junior" fl then
    jobs.filter (fun j => matchesExperience j "entry")
  else if strIn "mid" fl || strIn "intermediate" fl then
    jobs.filter (fun j => matchesExperience j "mid")
  else if strIn "senior" fl || strIn "experienced" fl then
    jobs.filter (fun j => matchesExperience j "senior")
  else jobs

/-- Salary block of the filter pass (lines 352-362). -/
def salaryStage (fl : String) (jobs : List Job) : List Job :=
  match searchSalaryFilter fl.data with
  | some (amount, unit) =>
    jobs.filter (fun j => meetsSalaryRequirement j (normalizeSalaryAmount amount unit))
  | none => jobs

/-- One iteration of the filter loop: an empty phrase is skipped (`continue`),
otherwise the phrase is lowered and the four category blocks run in source
order. -/
def applyOneFilter (jobs : List Job) (filterItem : String) : List Job :=
  if filterItem == "" then jobs
  else
    let fl := filterItem.pyLower
    salaryStage fl (experienceStage fl (recencyStage fl (remoteStage fl jobs)))

/-- The search plan dictionary produced by `JobPlanner.create_plan` (the keys
the filter pass and the orchestrator read). -/
structure Plan where
  site : String
  search : String
  location : String
  filters : List String
  fields : List String
deriving DecidableEq

/-- `BrowserExecutor._apply_filters_to_jobs`: a missing plan or an empty job
list or filter list is returned unchanged; otherwise each phrase narrows the
list in turn. -/
def applyFiltersToJobs (jobs : List Job) (plan : Option Plan) : List Job :=
  match plan with
  | none => jobs
  | some p =>
    if jobs.isEmpty then jobs
    else if p.filters.isEmpty then jobs
    else p.filters.foldl applyOneFilter jobs

/-- A filter phrase is recognised when it triggers at least one of the four
category blocks of `_apply_filters_to_jobs`: the disjunction of exactly the
guards of lines 330-353 on the lowered phrase. -/
def recognizedFilterPhrase (filterItem : String) : Bool :=
  let fl := filterItem.pyLower
  remoteFilterTerms.any (fun t => strIn t fl) ||
  (strIn "last 24 hours" fl || strIn "today" fl) ||
  strIn "last 3 days" fl ||
  (strIn "last 7 days" fl || strIn "week" fl) ||
  (strIn "last 30 days" fl || strIn "month" fl) ||
  (strIn "entry" fl || strIn "junior" fl) ||
  (strIn "mid" fl || strIn "intermediate" fl) ||
  (strIn "senior" fl || strIn "experienced" fl) ||
  (searchSalaryFilter fl.data).isSome

/-! ## Text cleaning and URL helpers — `job_extractor.py`

`JobExtractor` defines `clean_text` twice; the later definition (line 571)
overrides the earlier one, so the effective cleaner collapses whitespace,
strips, and then removes every character outside `[\w\s\-\.,]`. -/

/-- The effective `JobExtractor.clean_text` (the second, overriding
definition). -/
def cleanText (t : String) : String :=
  if t == "" then ""
  else
    let collapsed := pyStrip (collapseWs t)
    ⟨collapsed.data.filter (fun c =>
      pyIsWordChar c || pyIsSpace c || c = '-' || c = '.' || c = ',')⟩

/-- `UltraLightScraper._clean_text` (and the overridden first
`JobExtractor.clean_text`): collapse whitespace and strip only. -/
def ultraCleanText (t : String) : String :=
  if t == "" then "" else pyStrip (collapseWs t)

/-- The network-location component of a URL as `urlparse` computes it for the
URLs this code base feeds it: the segment after the first `//`, up to the next
`/`, `?` or `#`. -/
def urlNetloc (url : String) : String :=
  match pyFind url "//" with
  | none => ""
  | some i =>
    ⟨(url.data.drop (i + 2)).takeWhile (fun c => c ≠ '/' && c ≠ '?' && c ≠ '#')⟩

/-- `JobExtractor.extract_domain`. -/
def extractDomain (url : String) : String :=
  if url == "" then "Unknown"
  else if !(pyStartsWith url "http") then
    (if strIn "/" url then (pySplitSlash url).headD "" else url)
  else
    let domain := urlNetloc url
    if pyStartsWith domain "www." then ⟨domain.data.drop 4⟩ else domain

/-- The string Python's `str(site)` produces for the optional site argument
(`str(None)` is the text `None`). -/
def pyStrOfSite (site : Option String) : String :=
  match site with
  | some s => s
  | none => "None"

/-- Relative-link resolution of `extract_jobs_from_html` lines 191-205: a
leading-slash URL is joined onto the site's origin when the site looks like a
full URL, else onto a hard-coded domain guessed from the site hint. -/
def resolveRelativeUrl (site : Option String) (jobUrl : String) : String :=
  if pyStartsWith jobUrl "/" then
    match site with
    | some s =>
      if s != "" && (strIn "http://" s || strIn "https://" s) then
        (⟨s.data.takeWhile (fun c => c ≠ ':')⟩ : String) ++ "://" ++ urlNetloc s ++ jobUrl
      else
        if strIn "foundit" (pyStrOfSite site).pyLower then
          "https://www.foundit.in" ++ jobUrl
        else if strIn "indeed" (pyStrOfSite site).pyLower then
          "https://www.indeed.com" ++ jobUrl
        else if strIn "naukri" (pyStrOfSite site).pyLower then
          "https://www.naukri.com" ++ jobUrl
        else jobUrl
    | none =>
      if strIn "foundit" (pyStrOfSite none).pyLower then "https://www.foundit.in" ++ jobUrl
      else if strIn "indeed" (pyStrOfSite none).pyLower then "https://www.indeed.com" ++ jobUrl
      else if strIn "naukri" (pyStrOfSite none).pyLower then "https://www.naukri.com" ++ jobUrl
      else jobUrl
  else jobUrl

/-- The `source` field value: `extract_domain(site) if site else 'Unknown'`. -/
def sourceOfSite (site : Option String) : String :=
  match site with
  | some s => if s != "" then extractDomain s else "Unknown"
  | none => "Unknown"

/-! ## JSON-LD structured data — `JobExtractor.extract_structured_data` /
`extract_job_from_jsonld`

A decoded JSON-LD `JobPosting` dictionary is represented by exactly the fields
the extractors read.  Numeric salary bounds are Python numbers, whose
truthiness is being non-zero; shapes the source skips (non-dict blocks,
non-dict `baseSalary` or `value` entries) are represented by the `Option`
being `none` or the block being `skipped`. -/

/-- The `jobLocation` entry: absent, a single location dict (with optional
`address.addressLocality`), or a list of location dicts. -/
inductive JobLocationField
  | absent
  | dict (addressLocality : Option String)
  | fromList (localities : List (Option String))
deriving DecidableEq

/-- The `baseSalary.value` dict. -/
structure SalaryValueField where
  minValue : Option Nat
  maxValue : Option Nat
  unitText : Option String
deriving DecidableEq

/-- The `baseSalary` dict. -/
structure BaseSalaryField where
  value : Option SalaryValueField
  currency : Option String
deriving DecidableEq

/-- A decoded JSON-LD dictionary whose `@type` is `JobPosting`, restricted to
the keys the extractors access. -/
structure JobPostingData where
  title : Option String
  hiringOrganizationName : Option String
  description : Option String
  jobLocation : JobLocationField
  datePosted : Option String
  url : Option String
  baseSalary : Option BaseSalaryField
deriving DecidableEq

/-- Truthiness of a numeric JSON value fetched with default `''`. -/
def numTruthy (v : Option Nat) : Bool :=
  match v with
  | some n => n != 0
  | none => false

/-- The acceptance check of `extract_job_from_jsonld` (line 321): keep the
record only with a title and a company, location or URL. -/
def jsonldAccept (job : Job) : Option Job :=
  if (job.getD "title" != "") &&
      (job.getD "company" != "" || job.getD "location" != "" ||
        job.getD "job_url" != "") then
    some job
  else none

/-- `JobExtractor.extract_job_from_jsonld`: build the record field by field in
source order and return it only if it has a title and a company, location or
URL. -/
def extractJobFromJsonld (data : JobPostingData) (site : Option String) : Option Job :=
  let base : List (String × String) :=
    [("title", data.title.getD ""),
     ("company", data.hiringOrganizationName.getD ""),
     ("description", data.description.getD "")]
  let withLoc :=
    match data.jobLocation with
    | .absent => base
    | .dict loc => base ++ [("location", loc.getD "")]
    | .fromList [] => base
    | .fromList (first :: _) => base ++ [("location", first.getD "")]
  let withDate :=
    match data.datePosted with
    | some d => withLoc ++ [("date_posted", d)]
    | none => withLoc
  let withUrl :=
    match data.url with
    | some u => withDate ++ [("job_url", u)]
    | none => withDate
  let withSalary :=
    match data.baseSalary with
    | none => withUrl
    | some sd =>
      match sd.value with
      | none => withUrl
      | some v =>
        let currency := sd.currency.getD ""
        let unit := v.unitText.getD ""
        if numTruthy v.minValue && numTruthy v.maxValue then
          withUrl ++ [("salary",
            currency ++ toString (v.minValue.getD 0) ++ "-" ++
              currency ++ toString (v.maxValue.getD 0) ++ " " ++ unit)]
        else if numTruthy v.minValue then
          withUrl ++ [("salary",
            currency ++ toString (v.minValue.getD 0) ++ "+ " ++ unit)]
        else withUrl
  jsonldAccept ⟨withSalary ++ [("source", sourceOfSite site)]⟩

/-- One decoded `application/ld+json` script block, as the extractors classify
it: a single `JobPosting` dict, a list (of which only `JobPosting`-typed dict
items are used), or anything else (undecodable JSON, other types), which is
skipped silently. -/
inductive JsonLdBlock
  | posting (data : JobPostingData)
  | postingList (items : List JobPostingData)
  | skipped
deriving DecidableEq

/-- Appending one list item's record in `extract_structured_data`. -/
def structuredItemStep (site : Option String) (jobs : List Job)
    (d : JobPostingData) : List Job :=
  match extractJobFromJsonld d site with
  | some j => jobs ++ [j]
  | none => jobs

/-- Processing one script block in `extract_structured_data`. -/
def structuredBlockStep (site : Option String) (jobs : List Job)
    (block : JsonLdBlock) : List Job :=
  match block with
  | .posting d => structuredItemStep site jobs d
  | .postingList items => items.foldl (structuredItemStep site) jobs
  | .skipped => jobs

/-- `JobExtractor.extract_structured_data`: collect the records of every
`JobPosting` block, in document order, skipping rejected ones. -/
def extractStructuredData (blocks : List JsonLdBlock) (site : Option String) :
    List Job :=
  blocks.foldl (structuredBlockStep site) []

/-! ## HTML card extraction — `JobExtractor.extract_jobs_from_html`

A card holds the text of the element each per-field selector finds on it
(`select_one`), or `none` when the selector matches nothing; `jobUrlHref` is
the `href` of the job-URL element when the element exists and has one. -/

/-- One job card as observed through the per-field selectors. -/
structure HtmlCard where
  title : Option String
  company : Option String
  location : Option String
  date : Option String
  description : Option String
  salary : Option String
  experience : Option String
  jobUrlHref : Option String
deriving DecidableEq

/-- A parsed document, as observed through the queries
`extract_jobs_from_html` makes: the JSON-LD blocks and the card list the
site's job-card selector returns. -/
structure HtmlSoup where
  jsonLdBlocks : List JsonLdBlock
  jobCards : List HtmlCard
deriving DecidableEq

/-- Helper: add a field when the selector found an element. -/
def optField (k : String) (v : Option String) : List (String × String) :=
  match v with
  | some t => [(k, t)]
  | none => []

/-- The record built from one card by `extract_jobs_from_html` (lines
149-205), before the acceptance check. -/
def htmlCardJob (card : HtmlCard) (site : Option String) : Job :=
  ⟨optField "title" (card.title.map cleanText) ++
   optField "company" (card.company.map cleanText) ++
   optField "location" (card.location.map cleanText) ++
   optField "date_posted" (card.date.map cleanText) ++
   optField "description" (card.description.map cleanText) ++
   optField "salary" (card.salary.map cleanText) ++
   optField "experience" (card.experience.map cleanText) ++
   optField "job_url" (card.jobUrlHref.map (resolveRelativeUrl site))⟩

/-- One card-loop iteration of `extract_jobs_from_html`: accept the card's
record only with a title and a company, location or URL, stamping the
`source` field on acceptance. -/
def htmlCardStep (site : Option String) (jobs : List Job) (card : HtmlCard) :
    List Job :=
  let job := htmlCardJob card site
  if (job.getD "title" != "") &&
      (job.getD "company" != "" || job.getD "location" != "" ||
        job.getD "job_url" != "") then
    jobs ++ [⟨job.fields ++ [("source", sourceOfSite site)]⟩]
  else jobs

/-- `JobExtractor.extract_jobs_from_html`: structured data first (truncated to
`max_jobs`), else the card loop over the first `max_jobs` cards. -/
def extractJobsFromHtml (soup : HtmlSoup) (site : Option String) (maxJobs : Nat) :
    List Job :=
  let structured := extractStructuredData soup.jsonLdBlocks site
  if !structured.isEmpty then structured.take maxJobs
  else (soup.jobCards.take maxJobs).foldl (htmlCardStep site) []

/-! ## Ultra-lightweight scraper — `ultra_light_scraper.py`

`UltraLightScraper._scrape_foundit` works on a fetched page in three stages:
JSON-LD structured data (no validity check), selector card loops with
`Unknown …` fallbacks, and a generic keyword scan.  A failed fetch
(`_make_request` returning `None`) yields the empty list. -/

/-- One job record built by `UltraLightScraper._extract_structured_data` from
a `JobPosting` dict.  A `jobLocation` list makes the chained
`data.get('jobLocation', {}).get('address', {})` raise `AttributeError`, which
the per-script handler turns into skipping the rest of the script
(`none`). -/
def ultraJobOfPosting (d : JobPostingData) : Option Job :=
  match d.jobLocation with
  | .fromList _ => none
  | loc =>
    some ⟨[("title", d.title.getD ""),
           ("company", d.hiringOrganizationName.getD ""),
           ("location",
             match loc with
             | .dict l => l.getD ""
             | _ => ""),
           ("posted_date", d.datePosted.getD ""),
           ("source", "Structured Data"),
           ("description",
             match d.description with
             | some desc =>
               if desc != "" then (⟨desc.data.take 200⟩ : String) ++ "..." else ""
             | none => "")]⟩

/-- The items of a JSON-LD list block, processed until the first item whose
location access raises (the exception aborts the per-script loop, keeping the
records already appended). -/
def ultraPostingListJobs : List JobPostingData → List Job
  | [] => []
  | d :: rest =>
    match ultraJobOfPosting d with
    | some j => j :: ultraPostingListJobs rest
    | none => []

/-- `UltraLightScraper._extract_structured_data`. -/
def ultraExtractStructuredData (blocks : List JsonLdBlock) : List Job :=
  blocks.foldl (fun jobs b =>
    match b with
    | .posting d =>
      match ultraJobOfPosting d with
      | some j => jobs ++ [j]
      | none => jobs
    | .postingList ds => jobs ++ ultraPostingListJobs ds
    | .skipped => jobs) []

/-- A foundit card as observed through the three `select_one` calls of the
selector loop. -/
structure UltraCard where
  titleText : Option String
  companyText : Option String
  locationText : Option String
deriving DecidableEq

/-- A container found by the generic fallback: its first heading's text and
the texts of its `p`/`span`/`div` descendants, in document order. -/
structure GenericElement where
  headingText : Option String
  subTexts : List String
deriving DecidableEq

/-- A fetched foundit results page, as observed through the queries
`_scrape_foundit` makes: the JSON-LD blocks, the card lists the four selectors
return (in selector order), and the elements of the generic fallback
search. -/
structure UltraFounditPage where
  jsonLdBlocks : List JsonLdBlock
  selectorCards : List (List UltraCard)
  genericElements : List GenericElement
deriving DecidableEq

/-- The record the selector loop builds from one card (lines 229-244):
missing elements fall back to `Unknown Title` / `Unknown Company` / the search
location. -/
def ultraCardJob (location : String) (card : UltraCard) : Job :=
  ⟨[("title",
      match card.titleText with
      | some t => ultraCleanText t
      | none => "Unknown Title"),
    ("company",
      match card.companyText with
      | some t => ultraCleanText t
      | none => "Unknown Company"),
    ("location",
      match card.locationText with
      | some t => ultraCleanText t
      | none => location),
    ("posted_date", "Recent"),
    ("source", "Foundit.in"),
    ("description", "View job details on Foundit.in")]⟩

/-- The inner card loop of a selector (lines 226-249); the boolean reports the
early `return jobs` taken when `max_jobs` is reached. -/
def ultraCardLoop (location : String) (maxJobs : Nat) :
    List UltraCard → List Job → List Job × Bool
  | [], jobs => (jobs, false)
  | card :: rest, jobs =>
    let jobs := jobs ++ [ultraCardJob location card]
    if maxJobs ≤ jobs.length then (jobs, true)
    else ultraCardLoop location maxJobs rest jobs

/-- The outer selector loop (lines 222-249): every selector with matches
contributes cards, sliced to the remaining quota. -/
def ultraSelectorLoop (location : String) (maxJobs : Nat) :
    List (List UltraCard) → List Job → List Job × Bool
  | [], jobs => (jobs, false)
  | cards :: restSel, jobs =>
    if cards.isEmpty then ultraSelectorLoop location maxJobs restSel jobs
    else
      match ultraCardLoop location maxJobs (cards.take (maxJobs - jobs.length)) jobs with
      | (jobs2, true) => (jobs2, true)
      | (jobs2, false) => ultraSelectorLoop location maxJobs restSel jobs2

/-- The location / company keyword scan over a generic element's sub-texts
(lines 270-276): later matches overwrite earlier ones. -/
def ultraGenericScan (jobLocation company : String) : List String → String × String
  | [] => (jobLocation, company)
  | p :: rest =>
    let text := ultraCleanText p
    if text != "" && decide (text.length < 50) then
      if ["location", "address", "remote", "work from"].any
          (fun t => strIn t text.pyLower) then
        ultraGenericScan text company rest
      else if ["company", "organization", "employer"].any
          (fun t => strIn t text.pyLower) then
        ultraGenericScan jobLocation text rest
      else ultraGenericScan jobLocation company rest
    else ultraGenericScan jobLocation company rest

/-- The generic fallback loop (lines 254-292), entered only when no job was
found; accepts an element only when a real heading produced a title. -/
def ultraGenericLoop (location : String) (maxJobs : Nat) :
    List GenericElement → List Job → List Job
  | [], jobs => jobs
  | e :: rest, jobs =>
    let title :=
      match e.headingText with
      | some t => ultraCleanText t
      | none => "Job Opening"
    let startLocation := if location != "" then location else "Various Locations"
    let scanned := ultraGenericScan startLocation "Unknown Company" e.subTexts
    let jobs :=
      if title != "" && title != "Job Opening" then
        jobs ++ [⟨[("title", title), ("company", scanned.2),
                   ("location", scanned.1), ("posted_date", "Recent"),
                   ("source", "Foundit.in"),
                   ("description", "Job details extracted using lightweight scraper")]⟩]
      else jobs
    if maxJobs ≤ jobs.length then jobs
    else ultraGenericLoop location maxJobs rest jobs

/-- `UltraLightScraper._scrape_foundit` on a fetched page (`none` models a
failed `_make_request`). -/
def ultraScrapeFoundit (location : String) (maxJobs : Nat)
    (page : Option UltraFounditPage) : List Job :=
  match page with
  | none => []
  | some pg =>
    let structuredJobs := ultraExtractStructuredData pg.jsonLdBlocks
    let jobs := if structuredJobs.isEmpty then [] else structuredJobs.take maxJobs
    if !structuredJobs.isEmpty && maxJobs ≤ jobs.length then jobs.take maxJobs
    else
      match ultraSelectorLoop location maxJobs pg.selectorCards jobs with
      | (jobs2, true) => jobs2
      | (jobs2, false) =>
        if jobs2.isEmpty then
          ultraGenericLoop location maxJobs (pg.genericElements.take maxJobs) jobs2
        else jobs2

/-- The value `UltraLightScraper._scrape_naukri` returns: its body is only the
assignment of the empty list — the statements meant to fill it sit unreachable
after the `return` of `_extract_with_selectors` — so the function falls off
its end and returns Python `None`. -/
def ultraScrapeNaukri : Option (List Job) := none

/-- `UltraLightScraper.scrape_jobs`: dispatch on the site string (a missing
site defaults to foundit).  The results of the per-site scrapers other than
naukri are passed in as the site lists they would return; `scrape_jobs` then
evaluates `len(jobs)` for its log line, which raises `TypeError` when the
dispatched scraper returned `None`. -/
def ultraScrapeJobs (site : Option String)
    (founditJobs indeedJobs linkedinJobs : List Job) : Except String (List Job) :=
  let siteStr :=
    match site with
    | none => "foundit.in"
    | some s => s
  let dispatched : Option (List Job) :=
    if strIn "foundit" siteStr.pyLower || strIn "monster" siteStr.pyLower then
      some founditJobs
    else if strIn "indeed" siteStr.pyLower then some indeedJobs
    else if strIn "naukri" siteStr.pyLower then ultraScrapeNaukri
    else if strIn "linkedin" siteStr.pyLower then some linkedinJobs
    else some founditJobs
  match dispatched with
  | some js => Except.ok js
  | none => Except.error "TypeError"

/-! ## Simple scraper — `SimpleJobScraper._scrape_foundit`

A card is observed through the selector cascades the source runs: the raw text
of the first title-selector hit, the stripped non-blank texts the
company/location/date cascades settle on (`none` when every selector fails or
yields blank text), the first `href` the link cascade finds, and the card's
flattened text for the positional fallbacks. -/

/-- One card of the simple foundit scraper. -/
structure SimpleCard where
  titleText : Option String
  companyStripped : Option String
  locationStripped : Option String
  dateStripped : Option String
  linkHref : Option String
  text : String
deriving DecidableEq

/-- The city keywords of the location fallback (line 212). -/
def founditCities : List String :=
  ["mumbai", "delhi", "bangalore", "hyderabad", "pune", "chennai"]

/-- The location fallback scan over the lines after the company name
(lines 210-214). -/
def findCityLine : List String → String
  | [] => ""
  | line :: rest =>
    let line := pyStrip line
    if line != "" && decide (line.length < 30) &&
        founditCities.any (fun c => strIn c line.pyLower) then line
    else findCityLine rest

/-- The date-marker keywords of the date fallback (line 231). -/
def dateLinePatterns : List String :=
  ["posted", "ago", "day", "week", "month", "hour"]

/-- The date fallback scan over the card's lines (lines 232-236). -/
def findDateLine : List String → String
  | [] => ""
  | line :: rest =>
    let line := pyStrip line
    if dateLinePatterns.any (fun p => strIn p line.pyLower) &&
        decide (line.length < 30) then line
    else findDateLine rest

/-- The record the simple foundit scraper builds from one card (lines
150-264), or `none` when the card is skipped for a missing or blank title. -/
def simpleCardJob (card : SimpleCard) : Option Job :=
  match card.titleText with
  | none => none
  | some tt =>
    if pyStrip tt == "" then none
    else
      let title := pyStrip tt
      let company :=
        match card.companyStripped with
        | some c => c
        | none =>
          let cardLines := ((pySplitNl card.text).map pyStrip).filter (fun l => l != "")
          if decide (1 < cardLines.length) &&
              decide ((cardLines.getD 1 "").length < 50) then cardLines.getD 1 ""
          else ""
      let location :=
        match card.locationStripped with
        | some l => l
        | none =>
          if company != "" then
            match pyFind card.text company with
            | some idx =>
              if decide (0 < idx) then
                findCityLine (pySplitNl ⟨card.text.data.drop (idx + company.length)⟩)
              else ""
            | none => ""
          else ""
      let date :=
        match card.dateStripped with
        | some d => d
        | none => findDateLine (pySplitNl card.text)
      let link :=
        match card.linkHref with
        | some h => if pyStartsWith h "/" then "https://www.foundit.in" ++ h else h
        | none => ""
      some ⟨[("title", title), ("company", company), ("location", location),
             ("date", date), ("link", link)]⟩

/-- The card loop of one URL attempt (lines 148-278): accepted records are
appended until `max_jobs` records were extracted from this page. -/
def simpleCardLoop (maxJobs : Nat) :
    List SimpleCard → Nat → List Job → List Job
  | [], _, jobs => jobs
  | card :: rest, count, jobs =>
    match simpleCardJob card with
    | none => simpleCardLoop maxJobs rest count jobs
    | some job =>
      if (job.getD "title" != "") &&
          (job.getD "company" != "" || job.getD "location" != "" ||
            job.getD "date" != "" || job.getD "link" != "") then
        if maxJobs ≤ count + 1 then jobs ++ [job]
        else simpleCardLoop maxJobs rest (count + 1) (jobs ++ [job])
      else simpleCardLoop maxJobs rest count jobs

/-- The URL loop of `SimpleJobScraper._scrape_foundit` (lines 88-291): each
URL attempt yields either no page (`none`: non-200 response or a request
exception, `continue`) or a card list; the first attempt leaving the
accumulated list non-empty returns it, and exhausting all URLs returns the
empty list. -/
def simpleFounditUrlLoop (maxJobs : Nat) :
    List (Option (List SimpleCard)) → List Job → List Job
  | [], _ => []
  | none :: rest, jobs => simpleFounditUrlLoop maxJobs rest jobs
  | some cards :: rest, jobs =>
    let jobs2 := simpleCardLoop maxJobs (cards.take (maxJobs * 3)) 0 jobs
    if !jobs2.isEmpty then jobs2
    else simpleFounditUrlLoop maxJobs rest jobs2

/-- `SimpleJobScraper._scrape_foundit` over the pages its URL attempts
fetch. -/
def simpleScrapeFoundit (pages : List (Option (List SimpleCard)))
    (maxJobs : Nat) : List Job :=
  simpleFounditUrlLoop maxJobs pages []

/-! ## Fallback orchestrator — `app.run_job_scraper`

The orchestrator initialises `jobs = []` (app.py line 91) and runs every tier
call inside one `try` block (lines 92-259); an exception raised by a tier is
caught at line 260, and the function then returns the current value of `jobs`
— the previous tier's empty result, so the chain aborts with the empty list
and no later tier is invoked.  Each tier entry point is therefore abstracted
by its outcome for this request: the list it returns, or the exception it
raises (`Except.error`).  The statements that run after a tier has produced a
non-empty result are presentation code (progress bar, table, CSV download),
which the spec puts out of scope.  The embedding additionally records which
tiers were invoked, in order. -/

/-- The extraction tiers of the orchestrator. -/
inductive Tier
  | linkedin
  | lightweight
  | browser
  | simple
  | static
deriving DecidableEq

/-- Decidable equality of tier outcomes (`Except` carries no derived
instance). -/
instance exceptDecEq {ε α : Type} [DecidableEq ε] [DecidableEq α] :
    DecidableEq (Except ε α) := fun a b =>
  match a, b with
  | .error e, .error f =>
    if h : e = f then .isTrue (h ▸ rfl)
    else .isFalse (fun hc => h (by cases hc; rfl))
  | .ok x, .ok y =>
    if h : x = y then .isTrue (h ▸ rfl)
    else .isFalse (fun hc => h (by cases hc; rfl))
  | .error _, .ok _ => .isFalse (fun hc => Except.noConfusion hc)
  | .ok _, .error _ => .isFalse (fun hc => Except.noConfusion hc)

/-- The outcomes of the five tier entry points for one search request: the
list a tier returns, or the exception it raises. -/
structure TierResults where
  linkedinJobs : Except String (List Job)
  ultraJobs : Except String (List Job)
  browserJobs : Except String (List Job)
  simpleJobs : Except String (List Job)
  sampleJobs : Except String (List Job)
deriving DecidableEq

/-- The LinkedIn branch test of `run_job_scraper` (line 111):
`site and "linkedin" in site.lower()`. -/
def isLinkedinSite (site : Option String) : Bool :=
  match site with
  | some s => s != "" && strIn "linkedin" s.pyLower
  | none => false

/-- Lines 168-219 of `run_job_scraper`: given the current `jobs` value after
the first tier, fall back to browser automation, the simple scraper and the
static sample data, entering each only when the previous result was empty; a
raising tier lands in the `except` of line 260, which returns the current
(empty) `jobs`.  Returns the final list and the further tiers invoked. -/
def runTierFallbacks (t : TierResults) (jobs : List Job) : List Job × List Tier :=
  if !jobs.isEmpty then (jobs, [])
  else
    match t.browserJobs with
    | .error _ => (jobs, [Tier.browser])
    | .ok browserJobs =>
      if !browserJobs.isEmpty then (browserJobs, [Tier.browser])
      else
        match t.simpleJobs with
        | .error _ => (browserJobs, [Tier.browser, Tier.simple])
        | .ok simpleJobs =>
          if !simpleJobs.isEmpty then (simpleJobs, [Tier.browser, Tier.simple])
          else
            match t.sampleJobs with
            | .error _ => (simpleJobs, [Tier.browser, Tier.simple, Tier.static])
            | .ok sampleJobs =>
              (sampleJobs, [Tier.browser, Tier.simple, Tier.static])

/-- The tier policy of `app.run_job_scraper` (lines 91-266): the dedicated
LinkedIn scraper first for LinkedIn sites (with the lightweight scraper as its
direct backup), else the lightweight scraper, then the fallback cascade of
`runTierFallbacks`; a tier that raises aborts the chain through the `except`
of line 260, returning the `jobs` value accumulated so far (the empty list).
Returns the final job list and the tiers invoked, in order. -/
def runJobScraper (site : Option String) (t : TierResults) : List Job × List Tier :=
  if isLinkedinSite site then
    match t.linkedinJobs with
    | .error _ => ([], [Tier.linkedin])
    | .ok linkedinJobs =>
      if !linkedinJobs.isEmpty then
        ((runTierFallbacks t linkedinJobs).1,
          Tier.linkedin :: (runTierFallbacks t linkedinJobs).2)
      else
        match t.ultraJobs with
        | .error _ => (linkedinJobs, [Tier.linkedin, Tier.lightweight])
        | .ok ultraJobs =>
          ((runTierFallbacks t ultraJobs).1,
            Tier.linkedin :: Tier.lightweight :: (runTierFallbacks t ultraJobs).2)
  else
    match t.ultraJobs with
    | .error _ => ([], [Tier.lightweight])
    | .ok ultraJobs =>
      ((runTierFallbacks t ultraJobs).1,
        Tier.lightweight :: (runTierFallbacks t ultraJobs).2)

/-- Modelled from the spec: the four-tier chain claim C2 describes —
lightweight, then browser, then simple, then static, entering the next tier
exactly when the current result is empty and returning the first non-empty
result without invoking any later tier.  Spec section 4.4 treats an uncaught
exception inside a tier as equivalent to an empty result for transition
purposes, so a raising tier hands over to the next tier here. -/
def claimedTierChain (t : TierResults) : List Job × List Tier :=
  let ultraJobs := match t.ultraJobs with
    | .ok jobs => jobs
    | .error _ => []
  if !ultraJobs.isEmpty then (ultraJobs, [Tier.lightweight])
  else
    let browserJobs := match t.browserJobs with
      | .ok jobs => jobs
      | .error _ => []
    if !browserJobs.isEmpty then (browserJobs, [Tier.lightweight, Tier.browser])
    else
      let simpleJobs := match t.simpleJobs with
        | .ok jobs => jobs
        | .error _ => []
      if !simpleJobs.isEmpty then
        (simpleJobs, [Tier.lightweight, Tier.browser, Tier.simple])
      else
        let sampleJobs := match t.sampleJobs with
          | .ok jobs => jobs
          | .error _ => []
        (sampleJobs, [Tier.lightweight, Tier.browser, Tier.simple, Tier.static])

/-- The four-tier chain as the code actually runs it for a non-LinkedIn
request: next tier entered exactly when the current tier returned an empty
list, and a raising tier aborts the chain with the empty list, invoking no
later tier. -/
def abortingTierChain (t : TierResults) : List Job × List Tier :=
  match t.ultraJobs with
  | .error _ => ([], [Tier.lightweight])
  | .ok ultraJobs =>
    if !ultraJobs.isEmpty then (ultraJobs, [Tier.lightweight])
    else
      match t.browserJobs with
      | .error _ => ([], [Tier.lightweight, Tier.browser])
      | .ok browserJobs =>
        if !browserJobs.isEmpty then
          (browserJobs, [Tier.lightweight, Tier.browser])
        else
          match t.simpleJobs with
          | .error _ => ([], [Tier.lightweight, Tier.browser, Tier.simple])
          | .ok simpleJobs =>
            if !simpleJobs.isEmpty then
              (simpleJobs, [Tier.lightweight, Tier.browser, Tier.simple])
            else
              match t.sampleJobs with
              | .error _ =>
                ([], [Tier.lightweight, Tier.browser, Tier.simple, Tier.static])
              | .ok sampleJobs =>
                (sampleJobs,
                  [Tier.lightweight, Tier.browser, Tier.simple, Tier.static])

/-! ## Static sample tier — `sample_jobs.get_sample_jobs` -/

/-- The site filter of `get_sample_jobs` (lines 23-33): a recognised site hint
keeps only records whose `source` equals the canonical site key. -/
def siteStage (site : String) (allJobs : List Job) : List Job :=
  if site != "" && site.pyLower != "any" then
    let siteKey :=
      if strIn "foundit" site.pyLower then "foundit.in"
      else if strIn "indeed" site.pyLower then "indeed.com"
      else if strIn "naukri" site.pyLower then "naukri.com"
      else ""
    if siteKey != "" then
      allJobs.filter (fun job => (job.getD "source").pyLower == siteKey.pyLower)
    else allJobs
  else allJobs

/-- The per-record search predicate of `get_sample_jobs` (lines 39-47): every
search word occurs in the lowered title, or a description field exists and
every word occurs in it. -/
def sampleSearchMatch (terms : List String) (job : Job) : Bool :=
  terms.all (fun term => strIn term (job.getD "title").pyLower) ||
  (job.hasField "description" &&
    terms.all (fun term => strIn term (job.getD "description").pyLower))

/-- The search-term filter of `get_sample_jobs` (lines 36-50): the filtered
list replaces the current one only when it is non-empty. -/
def searchStage (searchTerm : String) (allJobs : List Job) : List Job :=
  if searchTerm != "" then
    let terms := pySplitWs searchTerm.pyLower
    let filtered := allJobs.filter (sampleSearchMatch terms)
    if !filtered.isEmpty then filtered else allJobs
  else allJobs

/-- The location filter of `get_sample_jobs` (lines 53-58): applied only when
it leaves at least one record. -/
def locationStage (location : String) (allJobs : List Job) : List Job :=
  if location != "" then
    let loc := location.pyLower
    let locationJobs := allJobs.filter (fun job => strIn loc (job.getD "location").pyLower)
    if !locationJobs.isEmpty then locationJobs else allJobs
  else allJobs

/-- The embedded sample dataset `SAMPLE_JOBS` of `sample_jobs.py`. -/
def SAMPLE_JOBS : List Job := [
  ⟨[("title", "Senior Software Engineer - Python"),
     ("company", "TCS"),
     ("location", "Bangalore, Karnataka"),
     ("date", "Posted 3 days ago"),
     ("link", "https://www.foundit.in/job/senior-software-engineer-python-tcs-bangalore-5-to-8-years-12345"),
     ("source", "foundit.in"),
     ("description", "We are looking for a Senior Software Engineer with strong Python skills to join our development team. You will be responsible for designing, implementing, and maintaining Python applications.")]⟩,
  ⟨[("title", "Full Stack Developer"),
     ("company", "Infosys"),
     ("location", "Hyderabad, Telangana"),
     ("date", "Posted 5 days ago"),
     ("link", "https://www.foundit.in/job/full-stack-developer-infosys-hyderabad-3-to-6-years-23456"),
     ("source", "foundit.in"),
     ("description", "Seeking Full Stack Developer with experience in React.js and Node.js to develop responsive web applications and RESTful APIs.")]⟩,
  ⟨[("title", "Data Scientist"),
     ("company", "Amazon"),
     ("location", "Bangalore, Karnataka"),
     ("date", "Posted 2 days ago"),
     ("link", "https://www.foundit.in/job/data-scientist-amazon-bangalore-4-to-8-years-34567"),
     ("source", "foundit.in"),
     ("description", "Join our Data Science team to develop scalable solutions for complex business problems using machine learning and statistical modeling.")]⟩,
  ⟨[("title", "DevOps Engineer"),
     ("company", "Microsoft"),
     ("location", "Pune, Maharashtra"),
     ("date", "Posted yesterday"),
     ("link", "https://www.foundit.in/job/devops-engineer-microsoft-pune-3-to-5-years-45678"),
     ("source", "foundit.in"),
     ("description", "Looking for a DevOps Engineer to help build and maintain our CI/CD pipelines, infrastructure automation, and cloud platforms.")]⟩,
  ⟨[("title", "Frontend Developer"),
     ("company", "Wipro"),
     ("location", "Chennai, Tamil Nadu"),
     ("date", "Posted 4 days ago"),
     ("link", "https://www.foundit.in/job/frontend-developer-wipro-chennai-2-to-4-years-56789"),
     ("source", "foundit.in"),
     ("description", "Experienced Frontend Developer needed to create responsive user interfaces with modern JavaScript frameworks like React or Angular.")]⟩,
  ⟨[("title", "Java Developer"),
     ("company", "IBM"),
     ("location", "Gurgaon, Haryana"),
     ("date", "Posted 1 week ago"),
     ("link", "https://www.naukri.com/job-listings-java-developer-ibm-gurgaon-3-to-6-years-67890"),
     ("source", "naukri.com"),
     ("description", "Java Developer with expertise in Spring Boot and microservices architecture for enterprise application development.")]⟩,
  ⟨[("title", "Machine Learning Engineer"),
     ("company", "Google"),
     ("location", "Hyderabad, Telangana"),
     ("date", "Posted 3 days ago"),
     ("link", "https://www.naukri.com/job-listings-machine-learning-engineer-google-hyderabad-5-to-9-years-78901"),
     ("source", "naukri.com"),
     ("description", "Machine Learning Engineer to develop AI solutions and work with large-scale data processing and model training pipelines.")]⟩,
  ⟨[("title", "Backend Developer - Node.js"),
     ("company", "Flipkart"),
     ("location", "Bangalore, Karnataka"),
     ("date", "Posted 6 days ago"),
     ("link", "https://www.naukri.com/job-listings-backend-developer-node-js-flipkart-bangalore-4-to-7-years-89012"),
     ("source", "naukri.com"),
     ("description", "Backend Developer with Node.js experience to build scalable APIs and server-side applications for our e-commerce platform.")]⟩,
  ⟨[("title", "iOS Developer"),
     ("company", "Paytm"),
     ("location", "Noida, Uttar Pradesh"),
     ("date", "Posted 2 days ago"),
     ("link", "https://www.naukri.com/job-listings-ios-developer-paytm-noida-3-to-5-years-90123"),
     ("source", "naukri.com"),
     ("description", "iOS Developer with Swift programming experience to develop and maintain our financial services mobile applications.")]⟩,
  ⟨[("title", "Cloud Solutions Architect"),
     ("company", "Oracle"),
     ("location", "Bangalore, Karnataka"),
     ("date", "Posted 5 days ago"),
     ("link", "https://www.naukri.com/job-listings-cloud-solutions-architect-oracle-bangalore-8-to-12-years-01234"),
     ("source", "naukri.com"),
     ("description", "Cloud Solutions Architect to design and implement scalable cloud infrastructure and lead technical discussions with clients.")]⟩,
  ⟨[("title", "Digital Marketing Manager"),
     ("company", "Accenture"),
     ("location", "Mumbai, Maharashtra"),
     ("date", "Posted 3 days ago"),
     ("link", "https://www.indeed.com/viewjob?jk=abcdef1234"),
     ("source", "indeed.com"),
     ("description", "Digital Marketing Manager needed to develop and implement marketing strategies across digital channels including SEO, PPC, and social media.")]⟩,
  ⟨[("title", "HR Business Partner"),
     ("company", "Deloitte"),
     ("location", "Bangalore, Karnataka"),
     ("date", "Posted 1 week ago"),
     ("link", "https://www.indeed.com/viewjob?jk=bcdef12345"),
     ("source", "indeed.com"),
     ("description", "HR Business Partner to collaborate with leadership and provide strategic HR support including talent management and employee relations.")]⟩,
  ⟨[("title", "Finance Analyst"),
     ("company", "KPMG"),
     ("location", "Gurgaon, Haryana"),
     ("date", "Posted 4 days ago"),
     ("link", "https://www.indeed.com/viewjob?jk=cdef123456"),
     ("source", "indeed.com"),
     ("description", "Finance Analyst required for financial reporting, budgeting, forecasting, and business analysis to support decision-making.")]⟩,
  ⟨[("title", "Operations Manager"),
     ("company", "Amazon"),
     ("location", "Chennai, Tamil Nadu"),
     ("date", "Posted 2 days ago"),
     ("link", "https://www.indeed.com/viewjob?jk=def1234567"),
     ("source", "indeed.com"),
     ("description", "Operations Manager to oversee daily operations, optimize processes, and ensure high performance standards in our fulfillment center.")]⟩,
  ⟨[("title", "Customer Success Manager"),
     ("company", "Salesforce"),
     ("location", "Hyderabad, Telangana"),
     ("date", "Posted 3 days ago"),
     ("link", "https://www.indeed.com/viewjob?jk=ef12345678"),
     ("source", "indeed.com"),
     ("description", "Customer Success Manager to build relationships with enterprise clients, understand their needs, and ensure they derive maximum value from our solutions.")]⟩,
  ⟨[("title", "Remote React.js Developer"),
     ("company", "Upwork"),
     ("location", "Remote"),
     ("date", "Posted 1 day ago"),
     ("link", "https://www.foundit.in/job/remote-reactjs-developer-upwork-remote-3-to-5-years-54321"),
     ("source", "foundit.in"),
     ("description", "Looking for a React.js Developer who can work remotely on front-end development projects with modern JavaScript frameworks.")]⟩,
  ⟨[("title", "Remote Content Writer"),
     ("company", "ContentMart"),
     ("location", "Remote"),
     ("date", "Posted 2 days ago"),
     ("link", "https://www.naukri.com/job-listings-remote-content-writer-contentmart-work-from-home-2-to-4-years-65432"),
     ("source", "naukri.com"),
     ("description", "Remote Content Writer to create engaging content for blogs, websites, and social media platforms across various industries.")]⟩,
  ⟨[("title", "Remote Project Manager"),
     ("company", "IBM"),
     ("location", "Remote, India"),
     ("date", "Posted 3 days ago"),
     ("link", "https://www.indeed.com/viewjob?jk=f123456789"),
     ("source", "indeed.com"),
     ("description", "Remote Project Manager to lead distributed teams, manage project lifecycles, and ensure timely delivery of IT solutions.")]⟩,
  ⟨[("title", "Remote UX/UI Designer"),
     ("company", "Accenture"),
     ("location", "Remote"),
     ("date", "Posted 2 days ago"),
     ("link", "https://www.indeed.com/viewjob?jk=1234567890a"),
     ("source", "indeed.com"),
     ("description", "Remote UX/UI Designer to create intuitive user experiences and visually appealing interfaces for web and mobile applications.")]⟩,
  ⟨[("title", "Remote Data Analyst"),
     ("company", "TCS"),
     ("location", "Remote, India"),
     ("date", "Posted 4 days ago"),
     ("link", "https://www.foundit.in/job/remote-data-analyst-tcs-remote-2-to-4-years-76543"),
     ("source", "foundit.in"),
     ("description", "Remote Data Analyst to extract insights from data, create reports, and support business decision-making processes.")]⟩
]

/-- `sample_jobs.get_sample_jobs`: site, search-term and location filters over
the sample dataset, truncated to the requested count. -/
def getSampleJobs (searchTerm location site : String) (count : Nat) : List Job :=
  let jobs := locationStage location (searchStage searchTerm (siteStage site SAMPLE_JOBS))
  jobs.take (min count jobs.length)

/-! ## Derived predicates and concrete inputs used by the theorems -/

/-- A date text from which `_is_recent_job` can extract no recency signal:
none of its textual markers occur and the relative-date regex does not
match. -/
def dateTextUnparseable (t : String) : Bool :=
  !(strIn "just now" t) && !(strIn "today" t) && !(strIn "yesterday" t) &&
  !(strIn "this week" t) && !(strIn "this month" t) &&
  (searchTimeAgo t.data).isNone

/-- The structured-data scenario posting: a JSON-LD `JobPosting` with
`minValue=10`, `maxValue=15`, `unitText=LPA` and no currency. -/
def scenarioPosting : JobPostingData :=
  { title := some "Data Scientist"
    hiringOrganizationName := some "Acme Analytics"
    description := some "Build ML models"
    jobLocation := .dict (some "Mumbai")
    datePosted := none
    url := none
    baseSalary := some { value := some { minValue := some 10, maxValue := some 15,
                                         unitText := some "LPA" },
                         currency := none } }

/-- The record the scenario posting extracts to. -/
def scenarioJob : Job :=
  ⟨[("title", "Data Scientist"), ("company", "Acme Analytics"),
    ("description", "Build ML models"), ("location", "Mumbai"),
    ("salary", "10-15 LPA"), ("source", "foundit.in")]⟩

/-- A JSON-LD `JobPosting` dict carrying none of the extracted keys. -/
def emptyPosting : JobPostingData :=
  { title := none, hiringOrganizationName := none, description := none,
    jobLocation := .absent, datePosted := none, url := none, baseSalary := none }

/-- A foundit page whose only content is one bare `JobPosting` block. -/
def ultraCounterPage : UltraFounditPage :=
  { jsonLdBlocks := [.posting emptyPosting], selectorCards := [], genericElements := [] }

/-- A document with one HTML job card carrying a title and a company. -/
def witnessSoup : HtmlSoup :=
  { jsonLdBlocks := [],
    jobCards := [{ title := some "ML Engineer", company := some "TechCorp",
                   location := none, date := none, description := none,
                   salary := none, experience := none, jobUrlHref := none }] }

/-- The record `extract_jobs_from_html` produces from `witnessSoup`. -/
def witnessHtmlJob : Job :=
  ⟨[("title", "ML Engineer"), ("company", "TechCorp"), ("source", "foundit.in")]⟩

/-- One fetched page of the simple foundit scraper with a single card. -/
def witnessSimplePages : List (Option (List SimpleCard)) :=
  [some [{ titleText := some "Data Analyst", companyStripped := some "DataCo",
           locationStripped := none, dateStripped := none, linkHref := none,
           text := "" }]]

/-- The record the simple foundit scraper produces from
`witnessSimplePages`. -/
def witnessSimpleJob : Job :=
  ⟨[("title", "Data Analyst"), ("company", "DataCo"), ("location", ""),
    ("date", ""), ("link", "")]⟩

/-- A record returned by the dedicated LinkedIn scraper. -/
def linkedinTierJob : Job := ⟨[("title", "LinkedIn Role"), ("company", "A")]⟩

/-- A record the lightweight scraper would return for the same request. -/
def ultraTierJob : Job := ⟨[("title", "Ultra Role"), ("company", "B")]⟩

/-- Tier results where both the dedicated LinkedIn scraper and the lightweight
scraper find (different) jobs. -/
def tierCounterResults : TierResults :=
  { linkedinJobs := .ok [linkedinTierJob], ultraJobs := .ok [ultraTierJob],
    browserJobs := .ok [], simpleJobs := .ok [], sampleJobs := .ok [] }

/-- A record the browser tier would return for the naukri request. -/
def browserTierJob : Job := ⟨[("title", "Browser Role"), ("company", "C")]⟩

/-- Tier results for a naukri.com request: the lightweight tier raises
TypeError (the naukri path of `ultraScrapeJobs`), while the browser tier
would have found a job. -/
def raisingTierResults : TierResults :=
  { linkedinJobs := .ok [], ultraJobs := .error "TypeError",
    browserJobs := .ok [browserTierJob], simpleJobs := .ok [],
    sampleJobs := .ok [] }

/-- A record with no date-like field. -/
def noDateJob : Job := ⟨[("title", "Platform Engineer"), ("company", "X")]⟩

/-- A record whose date text parses to 48 hours. -/
def recentDateJob : Job := ⟨[("title", "X"), ("date", "2 days ago")]⟩

/-- A one-record job list for the filter no-op witness. -/
def witnessFilterJobs : List Job := [⟨[("title", "Backend Developer"), ("company", "X")]⟩]

/-- A plan whose single filter phrase matches no recognised category. -/
def witnessNoopPlan : Plan :=
  { site := "foundit.in", search := "backend", location := "Pune",
    filters := ["blockchain expert"], fields := [] }

/-- The predicate the remote block filters by (identically true when the
phrase does not trigger it). -/
def remotePred (fl : String) (j : Job) : Bool :=
  if remoteFilterTerms.any (fun t => strIn t fl) then isRemoteJob j else true

/-- The predicate the recency block filters by. -/
def recencyPred (fl : String) (j : Job) : Bool :=
  if strIn "last 24 hours" fl || strIn "today" fl then isRecentJob j 24
  else if strIn "last 3 days" fl then isRecentJob j 72
  else if strIn "last 7 days" fl || strIn "week" fl then isRecentJob j 168
  else if strIn "last 30 days" fl || strIn "month" fl then isRecentJob j 720
  else true

/-- The predicate the experience block filters by. -/
def experiencePred (fl : String) (j : Job) : Bool :=
  if strIn "entry" fl || strIn "junior" fl then matchesExperience j "entry"
  else if strIn "mid" fl || strIn "intermediate" fl then matchesExperience j "mid"
  else if strIn "senior" fl || strIn "experienced" fl then matchesExperience j "senior"
  else true

/-- The predicate the salary block filters by. -/
def salaryPred (fl : String) (j : Job) : Bool :=
  match searchSalaryFilter fl.data with
  | some (amount, unit) => meetsSalaryRequirement j (normalizeSalaryAmount amount unit)
  | none => true

/-- The combined per-record predicate of one filter phrase: a phrase pass is a
single `List.filter` by this predicate. -/
def phraseFilterPred (ph : String) (j : Job) : Bool :=
  if ph == "" then true
  else
    let fl := ph.pyLower
    salaryPred fl j && (experiencePred fl j && (recencyPred fl j && remotePred fl j))

/-! ## Structural lemmas about the filter pass -/

/-- Each category block of the filter pass is a `List.filter`. -/
theorem remoteStage_eq_filter (fl : String) (l : List Job) :
    remoteStage fl l = l.filter (remotePred fl) := by
  unfold remoteStage remotePred
  cases h : remoteFilterTerms.any (fun t => strIn t fl) <;> simp [h]

/-- The recency block is a `List.filter`. -/
theorem recencyStage_eq_filter (fl : String) (l : List Job) :
    recencyStage fl l = l.filter (recencyPred fl) := by
  unfold recencyStage recencyPred
  cases h1 : (strIn "last 24 hours" fl || strIn "today" fl) <;>
    cases h2 : strIn "last 3 days" fl <;>
    cases h3 : (strIn "last 7 days" fl || strIn "week" fl) <;>
    cases h4 : (strIn "last 30 days" fl || strIn "month" fl) <;>
    simp [h1, h2, h3, h4]

/-- The experience block is a `List.filter`. -/
theorem experienceStage_eq_filter (fl : String) (l : List Job) :
    experienceStage fl l = l.filter (experiencePred fl) := by
  unfold experienceStage experiencePred
  cases h1 : (strIn "entry" fl || strIn "junior" fl) <;>
    cases h2 : (strIn "mid" fl || strIn "intermediate" fl) <;>
    cases h3 : (strIn "senior" fl || strIn "experienced" fl) <;>
    simp [h1, h2, h3]

/-- The salary block is a `List.filter`. -/
theorem salaryStage_eq_filter (fl : String) (l : List Job) :
    salaryStage fl l = l.filter (salaryPred fl) := by
  unfold salaryStage salaryPred
  cases h : searchSalaryFilter fl.data with
  | none => simp [h]
  | some p => cases p with
    | mk amount unit => simp [h]

/-- One filter-phrase pass is a single `List.filter` by the phrase's combined
predicate. -/
theorem applyOneFilter_eq_filter (l : List Job) (ph : String) :
    applyOneFilter l ph = l.filter (phraseFilterPred ph) := by
  unfold applyOneFilter phraseFilterPred
  cases hph : (ph == "") with
  | true => simp
  | false =>
    simp only [Bool.false_eq_true, if_false]
    rw [remoteStage_eq_filter, recencyStage_eq_filter, experienceStage_eq_filter,
      salaryStage_eq_filter, List.filter_filter, List.filter_filter,
      List.filter_filter]
    exact List.filter_congr fun a _ => by
      cases salaryPred ph.pyLower a <;> cases experiencePred ph.pyLower a <;>
        cases recencyPred ph.pyLower a <;> cases remotePred ph.pyLower a <;> rfl

/-- Filtering twice by the same predicate filters once. -/
theorem filter_self_filter (P : Job → Bool) (l : List Job) :
    (l.filter P).filter P = l.filter P := by
  rw [List.filter_filter]
  exact List.filter_congr (fun a _ => Bool.and_self (P a))

/-- One phrase pass is idempotent. -/
theorem applyOneFilter_idem (l : List Job) (ph : String) :
    applyOneFilter (applyOneFilter l ph) ph = applyOneFilter l ph := by
  rw [applyOneFilter_eq_filter, applyOneFilter_eq_filter]
  exact filter_self_filter _ _

/-- C4: parsing the salary-floor filter phrase with amount 15 and unit LPA and
the phrase with amount 1500 and unit k both normalise to the same threshold of
15 lakhs. -/
theorem salary_floor_normalization_round_trip :
    salaryFloorOfFilter "salary above 15 LPA" = some 15 ∧
    salaryFloorOfFilter "salary above 1500k" = some 15 := by
  have h1 : searchSalaryFilter ("salary above 15 LPA".pyLower).data = some (15, "l") := by
    decide
  have h2 : searchSalaryFilter ("salary above 1500k".pyLower).data = some (1500, "k") := by
    decide
  constructor
  · rw [salaryFloorOfFilter, h1]
    simp +decide [normalizeSalaryAmount]
  · rw [salaryFloorOfFilter, h2]
    simp +decide [normalizeSalaryAmount]
    norm_num

/-- C5: applying the filter pass of a plan with a single filter phrase twice
in sequence yields the same result list as applying it once, for every job
list, plan and phrase. -/
theorem filter_pass_idempotent (jobs : List Job)
    (site search location : String) (fields : List String) (phrase : String) :
    applyFiltersToJobs
        (applyFiltersToJobs jobs (some ⟨site, search, location, [phrase], fields⟩))
        (some ⟨site, search, location, [phrase], fields⟩) =
      applyFiltersToJobs jobs (some ⟨site, search, location, [phrase], fields⟩) := by
  by_cases hj : jobs.isEmpty
  · simp [applyFiltersToJobs, hj]
  · have h1 : applyFiltersToJobs jobs (some ⟨site, search, location, [phrase], fields⟩)
        = applyOneFilter jobs phrase := by
      simp [applyFiltersToJobs, hj]
    rw [h1]
    by_cases hr : (applyOneFilter jobs phrase).isEmpty
    · simp [applyFiltersToJobs, hr]
    · simp [applyFiltersToJobs, hr, applyOneFilter_idem]

/-- A phrase matching no recognised category leaves any list unchanged. -/
theorem applyOneFilter_noop (l : List Job) (ph : String)
    (h : recognizedFilterPhrase ph = false) : applyOneFilter l ph = l := by
  unfold recognizedFilterPhrase at h
  simp only [Bool.or_eq_false_iff] at h
  obtain ⟨⟨⟨⟨⟨⟨⟨⟨hrem, hr1⟩, hr2⟩, hr3⟩, hr4⟩, he1⟩, he2⟩, he3⟩, hsal⟩ := h
  have hsal2 : searchSalaryFilter ph.pyLower.data = none := by
    cases hx : searchSalaryFilter ph.pyLower.data with
    | none => rfl
    | some v => rw [hx] at hsal; simp at hsal
  unfold applyOneFilter
  cases hph : (ph == "") with
  | true => simp
  | false =>
    simp only [Bool.false_eq_true, if_false]
    unfold remoteStage recencyStage experienceStage salaryStage
    simp only [hrem, hr1.1, hr1.2, hr2, hr3.1, hr3.2, hr4.1, hr4.2, he1.1, he1.2,
      he2.1, he2.2, he3.1, he3.2, hsal2, Bool.or_false, Bool.false_or,
      Bool.false_eq_true, if_false]

/-- Folding unrecognised phrases over a list is the identity. -/
theorem foldl_unrecognized_noop (filters : List String) (l : List Job)
    (h : ∀ ph ∈ filters, recognizedFilterPhrase ph = false) :
    filters.foldl applyOneFilter l = l := by
  induction filters generalizing l with
  | nil => rfl
  | cons ph rest ih =>
    rw [List.foldl_cons, applyOneFilter_noop l ph (h ph (by simp))]
    exact ih l (fun q hq => h q (by simp [hq]))

/-- C6: the filter pass is a total function of the job list and plan — every
partial operation in its body (dictionary access, regex search) is guarded in
the source, so it is embedded by the total `applyFiltersToJobs` and can raise
no exception — and a plan whose filter phrases all match none of the
recognised categories (remote, recency, experience, salary floor) leaves the
job list unchanged. -/
theorem unrecognized_filters_noop (jobs : List Job) (plan : Plan)
    (h : ∀ ph ∈ plan.filters, recognizedFilterPhrase ph = false) :
    applyFiltersToJobs jobs (some plan) = jobs := by
  unfold applyFiltersToJobs
  by_cases hj : jobs.isEmpty
  · simp [hj]
  · by_cases hf : plan.filters.isEmpty
    · simp [hj, hf]
    · simp [hj, hf, foldl_unrecognized_noop plan.filters jobs h]

/-- Witness for C6 at a concrete plan and job list. -/
theorem unrecognized_filters_noop_witness :
    (∀ ph ∈ witnessNoopPlan.filters, recognizedFilterPhrase ph = false) ∧
    applyFiltersToJobs witnessFilterJobs (some witnessNoopPlan) = witnessFilterJobs :=
  ⟨by decide, unrecognized_filters_noop witnessFilterJobs witnessNoopPlan (by decide)⟩

/-- An unparseable date text passes the recency text check at every
threshold. -/
theorem isRecentText_of_unparseable (t : String) (hours : Nat)
    (h : dateTextUnparseable t = true) : isRecentText t hours = true := by
  unfold dateTextUnparseable at h
  simp only [Bool.and_eq_true, Bool.not_eq_eq_eq_not, Bool.not_true,
    Option.isNone_iff_eq_none] at h
  obtain ⟨⟨⟨⟨⟨h1, h2⟩, h3⟩, h4⟩, h5⟩, h6⟩ := h
  unfold isRecentText
  rw [h1, h2, h3, h4, h5, h6]
  rfl

/-- C3: a JobRecord with none of the date-like fields, or whose probed date
field is empty or unparseable (no textual marker and no relative-date match),
passes the recency check at every hour threshold. -/
theorem recency_default_to_include (job : Job) (hours : Nat)
    (h : dateProbeFields.find? (fun f => job.hasField f) = none ∨
         ∃ f, dateProbeFields.find? (fun f => job.hasField f) = some f ∧
           (job.getD f = "" ∨ dateTextUnparseable (job.getD f).pyLower = true)) :
    isRecentJob job hours = true := by
  unfold isRecentJob
  rcases h with h | ⟨f, hf, hv⟩
  · rw [h]
  · rw [hf]
    rcases hv with hv | hv
    · simp [hv]
    · by_cases hev : job.getD f == ""
      · simp [hev]
      · simp only [hev, Bool.false_eq_true, if_false]
        exact isRecentText_of_unparseable _ hours hv

/-- Witness for C3: a record without any date-like field passes the 24-hour
filter. -/
theorem recency_default_to_include_witness :
    isRecentJob noDateJob 24 = true :=
  recency_default_to_include noDateJob 24 (Or.inl (by decide))

/-- The recency text check is monotone in the hour threshold. -/
theorem isRecentText_mono (t : String) (h h2 : Nat) (hle : h ≤ h2)
    (ht : isRecentText t h = true) : isRecentText t h2 = true := by
  unfold isRecentText at ht ⊢
  revert ht
  cases hm : searchTimeAgo t.data with
  | none =>
    intro ht
    simp
  | some p =>
    cases p with
    | mk value unit =>
      intro ht
      simp only [Bool.or_eq_true, Bool.and_eq_true, decide_eq_true_eq] at ht ⊢
      rcases ht with (((hD1 | ⟨hs, hn⟩) | ⟨hs, hn⟩) | ⟨hs, hn⟩) | hD5
      · exact Or.inl (Or.inl (Or.inl (Or.inl hD1)))
      · exact Or.inl (Or.inl (Or.inl (Or.inr ⟨hs, by omega⟩)))
      · exact Or.inl (Or.inl (Or.inr ⟨hs, by omega⟩))
      · exact Or.inl (Or.inr ⟨hs, by omega⟩)
      · rcases hD5 with ((⟨hu, hn⟩ | ⟨hu, hn⟩) | ⟨hu, hn⟩) | ⟨hu, hn⟩
        · exact Or.inr (Or.inl (Or.inl (Or.inl ⟨hu, by omega⟩)))
        · exact Or.inr (Or.inl (Or.inl (Or.inr ⟨hu, by omega⟩)))
        · exact Or.inr (Or.inl (Or.inr ⟨hu, by omega⟩))
        · exact Or.inr (Or.inr ⟨hu, by omega⟩)

/-- C9: the recency predicate is monotone in its hour threshold — a record
passing the check at a smaller threshold passes it at every larger one. -/
theorem recency_threshold_monotone (job : Job) (h h2 : Nat) (hle : h ≤ h2)
    (hrec : isRecentJob job h = true) : isRecentJob job h2 = true := by
  unfold isRecentJob at hrec ⊢
  revert hrec
  cases hf : dateProbeFields.find? (fun f => job.hasField f) with
  | none => intro _; rfl
  | some f =>
    intro hrec
    simp only at hrec ⊢
    by_cases hev : (job.getD f == "") = true
    · simp [hev]
    · rw [Bool.not_eq_true] at hev
      simp only [hev, Bool.false_eq_true, if_false] at hrec ⊢
      exact isRecentText_mono _ h h2 hle hrec

/-- Witness for C9: a record posted two days ago passes at 48 hours, hence at
72 hours. -/
theorem recency_threshold_monotone_witness :
    isRecentJob recentDateJob 72 = true :=
  recency_threshold_monotone recentDateJob 48 72 (by decide) (by decide)

/-- C7: the structured-data JobPosting with minValue 10, maxValue 15 and
unitText LPA extracts to a record whose salary text contains both bounds; that
record passes the salary filter with floor 8 LPA and fails it with floor
20 LPA (the comparison takes the range's lower bound). -/
theorem structured_salary_scenario :
    extractJobFromJsonld scenarioPosting (some "foundit.in") = some scenarioJob ∧
    scenarioJob.getD "salary" = "10-15 LPA" ∧
    strIn "10" (scenarioJob.getD "salary") = true ∧
    strIn "15" (scenarioJob.getD "salary") = true ∧
    applyOneFilter [scenarioJob] "salary above 8 LPA" = [scenarioJob] ∧
    applyOneFilter [scenarioJob] "salary above 20 LPA" = [] := by
  refine ⟨by decide, by decide, by decide, by decide, ?_, ?_⟩ <;> decide

/-- C8: dispatching the lightweight tier's `scrape_jobs` to the naukri site
raises: `_scrape_naukri` returns `None` (its body was orphaned by a misplaced
`return`), so `len(jobs)` in `scrape_jobs` raises `TypeError` instead of
returning an empty result. -/
theorem ultra_scrape_jobs_naukri_raises :
    ultraScrapeJobs (some "naukri.com") [] [] [] = Except.error "TypeError" := by
  rfl

/-- C2 counterexample, two divergences from the claimed four-tier policy.
First, a LinkedIn search request whose dedicated LinkedIn scraper finds jobs:
the orchestrator returns those without ever invoking the lightweight tier,
even though the lightweight tier's (different, non-empty) result should have
been returned under the claimed chain.  Second, a naukri.com request: the
lightweight tier raises TypeError, the orchestrator catches it at app.py line
260 and returns the empty list without invoking the browser tier, even though
under the claimed chain (exception counted as empty per spec section 4.4) the
browser tier's non-empty result should have been returned. -/
theorem linkedin_tier_order_counterexample :
    runJobScraper (some "linkedin.com") tierCounterResults
        = ([linkedinTierJob], [Tier.linkedin]) ∧
    claimedTierChain tierCounterResults = ([ultraTierJob], [Tier.lightweight]) ∧
    runJobScraper (some "linkedin.com") tierCounterResults
        ≠ claimedTierChain tierCounterResults ∧
    runJobScraper (some "naukri.com") raisingTierResults
        = ([], [Tier.lightweight]) ∧
    claimedTierChain raisingTierResults
        = ([browserTierJob], [Tier.lightweight, Tier.browser]) ∧
    runJobScraper (some "naukri.com") raisingTierResults
        ≠ claimedTierChain raisingTierResults := by
  refine ⟨by decide, by decide, by decide, by decide, by decide, by decide⟩

set_option maxHeartbeats 2000000 in
/-- C2 as amended: for every non-LinkedIn request the orchestrator follows the
four-tier chain with abort-on-raise (`abortingTierChain`): lightweight,
browser, simple, static, next tier entered iff the current tier returned an
empty result, first non-empty result returned with no later tier invoked, and
a raising tier aborting the chain with the empty list (the `except` of app.py
line 260), invoking no later tier.  For a LinkedIn request the dedicated
LinkedIn tier runs first: a raise there aborts at once, a non-empty result is
returned as is, and the same chain (its invoked tiers after the LinkedIn one)
runs only when it returns empty. -/
theorem orchestrator_tier_policy (site : Option String) (t : TierResults) :
    runJobScraper site t =
      if isLinkedinSite site then
        match t.linkedinJobs with
        | .error _ => ([], [Tier.linkedin])
        | .ok linkedinJobs =>
          if linkedinJobs.isEmpty then
            ((abortingTierChain t).1, Tier.linkedin :: (abortingTierChain t).2)
          else (linkedinJobs, [Tier.linkedin])
      else abortingTierChain t := by
  obtain ⟨l, u, b, s, st⟩ := t
  cases hsite : isLinkedinSite site <;>
    cases l <;> cases u <;> cases b <;> cases s <;> cases st <;>
    simp only [runJobScraper, runTierFallbacks, abortingTierChain, hsite] <;>
    split_ifs <;>
    simp_all [List.isEmpty_iff]

/-! ## The minimum-validity invariant for the extraction operations -/

/-- A record with a non-empty title and a non-empty field under another key
satisfies the minimum-validity invariant. -/
theorem minValid_of_key (j : Job) (k : String) (hk : (k == "title") = false)
    (ht : (j.getD "title" != "") = true) (hv : (j.getD k != "") = true) :
    minValidJob j = true := by
  unfold minValidJob
  rw [ht, Bool.true_and]
  unfold Job.getD Job.get? at hv
  cases hfind : j.fields.find? (fun kv => kv.1 == k) with
  | none => rw [hfind] at hv; simp at hv
  | some kv =>
    rw [hfind] at hv
    simp only [Option.map_some', Option.getD_some] at hv
    have hmem := List.mem_of_find?_eq_some hfind
    have hpk := List.find?_some hfind
    rw [List.any_eq_true]
    refine ⟨kv, hmem, ?_⟩
    have hk1 : kv.1 = k := by simpa using hpk
    rw [Bool.and_eq_true]
    exact ⟨by simp [bne, hk1, hk], hv⟩

/-- Appending an entry whose predicate fails does not change `find?`. -/
theorem find?_append_singleton (fields : List (String × String))
    (kv : String × String) (p : String × String → Bool) (hp : p kv = false) :
    (fields ++ [kv]).find? p = fields.find? p := by
  induction fields with
  | nil => simp [List.find?, hp]
  | cons a t ih =>
    cases ha : p a <;> simp [List.find?, ha, ih]

/-- Appending a non-title field preserves the minimum-validity invariant. -/
theorem minValid_append_nontitle (j : Job) (kv : String × String)
    (hk : (kv.1 == "title") = false) (h : minValidJob j = true) :
    minValidJob ⟨j.fields ++ [kv]⟩ = true := by
  unfold minValidJob at h ⊢
  rw [Bool.and_eq_true] at h ⊢
  obtain ⟨ht, hany⟩ := h
  constructor
  · unfold Job.getD Job.get? at ht ⊢
    have hfind := find?_append_singleton j.fields kv (fun x => x.1 == "title") hk
    simpa [hfind] using ht
  · rw [List.any_eq_true] at hany ⊢
    obtain ⟨x, hm, hx⟩ := hany
    exact ⟨x, by simp [hm], hx⟩

/-- The acceptance check only passes records satisfying the invariant:
it requires a title together with a company, location or URL. -/
theorem jsonldAccept_valid (job j : Job) (h : jsonldAccept job = some j) :
    minValidJob j = true := by
  unfold jsonldAccept at h
  split at h
  case isTrue hcond =>
    injection h with h
    subst h
    rw [Bool.and_eq_true, Bool.or_eq_true, Bool.or_eq_true] at hcond
    rcases hcond with ⟨ht, (hc | hl) | hu⟩
    · exact minValid_of_key _ "company" (by decide) ht hc
    · exact minValid_of_key _ "location" (by decide) ht hl
    · exact minValid_of_key _ "job_url" (by decide) ht hu
  case isFalse => exact absurd h (by simp)

/-- Every record `extract_job_from_jsonld` returns satisfies the invariant. -/
theorem jsonld_job_valid (d : JobPostingData) (site : Option String) (j : Job)
    (h : extractJobFromJsonld d site = some j) : minValidJob j = true := by
  unfold extractJobFromJsonld at h
  exact jsonldAccept_valid _ j h

/-- One item step of `extract_structured_data` preserves validity of the
accumulated list. -/
theorem structuredItemStep_valid (site : Option String) (jobs : List Job)
    (d : JobPostingData) (hacc : ∀ x ∈ jobs, minValidJob x = true) :
    ∀ x ∈ structuredItemStep site jobs d, minValidJob x = true := by
  unfold structuredItemStep
  cases hx : extractJobFromJsonld d site with
  | none => exact hacc
  | some jj =>
    intro x hmem
    rcases List.mem_append.mp hmem with hm | hm
    · exact hacc x hm
    · rw [List.mem_singleton] at hm
      subst hm
      exact jsonld_job_valid d site x hx

/-- Folding item steps preserves validity. -/
theorem foldl_structuredItemStep_valid (site : Option String)
    (items : List JobPostingData) :
    ∀ jobs, (∀ x ∈ jobs, minValidJob x = true) →
      ∀ x ∈ items.foldl (structuredItemStep site) jobs, minValidJob x = true := by
  induction items with
  | nil => intro jobs hacc; simpa using hacc
  | cons d rest ih =>
    intro jobs hacc
    rw [List.foldl_cons]
    exact ih _ (structuredItemStep_valid site jobs d hacc)

/-- One block step of `extract_structured_data` preserves validity. -/
theorem structuredBlockStep_valid (site : Option String) (jobs : List Job)
    (b : JsonLdBlock) (hacc : ∀ x ∈ jobs, minValidJob x = true) :
    ∀ x ∈ structuredBlockStep site jobs b, minValidJob x = true := by
  unfold structuredBlockStep
  cases b with
  | posting d => exact structuredItemStep_valid site jobs d hacc
  | postingList items => exact foldl_structuredItemStep_valid site items jobs hacc
  | skipped => exact hacc

/-- Folding block steps preserves validity. -/
theorem foldl_structuredBlockStep_valid (site : Option String)
    (blocks : List JsonLdBlock) :
    ∀ jobs, (∀ x ∈ jobs, minValidJob x = true) →
      ∀ x ∈ blocks.foldl (structuredBlockStep site) jobs, minValidJob x = true := by
  induction blocks with
  | nil => intro jobs hacc; simpa using hacc
  | cons b rest ih =>
    intro jobs hacc
    rw [List.foldl_cons]
    exact ih _ (structuredBlockStep_valid site jobs b hacc)

/-- Every record of `extract_structured_data` satisfies the invariant. -/
theorem extractStructuredData_valid (blocks : List JsonLdBlock)
    (site : Option String) :
    ∀ x ∈ extractStructuredData blocks site, minValidJob x = true := by
  unfold extractStructuredData
  exact foldl_structuredBlockStep_valid site blocks [] (by simp)

/-- One card step of the HTML card loop preserves validity: its acceptance
check requires a title with a company, location or URL, and the appended
`source` field cannot unset them. -/
theorem htmlCardStep_valid (site : Option String) (jobs : List Job)
    (card : HtmlCard) (hacc : ∀ x ∈ jobs, minValidJob x = true) :
    ∀ x ∈ htmlCardStep site jobs card, minValidJob x = true := by
  intro x hmem
  simp only [htmlCardStep] at hmem
  split at hmem
  next hcond =>
    rcases List.mem_append.mp hmem with hm | hm
    · exact hacc x hm
    · rw [List.mem_singleton] at hm
      subst hm
      rw [Bool.and_eq_true, Bool.or_eq_true, Bool.or_eq_true] at hcond
      have hjob : minValidJob (htmlCardJob card site) = true := by
        rcases hcond with ⟨ht, (hc | hl) | hu⟩
        · exact minValid_of_key _ "company" (by decide) ht hc
        · exact minValid_of_key _ "location" (by decide) ht hl
        · exact minValid_of_key _ "job_url" (by decide) ht hu
      exact minValid_append_nontitle _ _ (by rfl) hjob
  next => exact hacc x hmem

/-- Folding card steps preserves validity. -/
theorem foldl_htmlCardStep_valid (site : Option String) (cards : List HtmlCard) :
    ∀ jobs, (∀ x ∈ jobs, minValidJob x = true) →
      ∀ x ∈ cards.foldl (htmlCardStep site) jobs, minValidJob x = true := by
  induction cards with
  | nil => intro jobs hacc; simpa using hacc
  | cons card rest ih =>
    intro jobs hacc
    rw [List.foldl_cons]
    exact ih _ (htmlCardStep_valid site jobs card hacc)

/-- Every record of `extract_jobs_from_html` satisfies the invariant. -/
theorem extractJobsFromHtml_valid (soup : HtmlSoup) (site : Option String)
    (maxJobs : Nat) :
    ∀ j ∈ extractJobsFromHtml soup site maxJobs, minValidJob j = true := by
  intro j hm
  simp only [extractJobsFromHtml] at hm
  split at hm
  · exact extractStructuredData_valid soup.jsonLdBlocks site j
      (List.take_subset maxJobs _ hm)
  · exact foldl_htmlCardStep_valid site (soup.jobCards.take maxJobs) [] (by simp) j hm

/-- The card loop of the simple foundit scraper preserves validity: its
acceptance check requires a title with a company, location, date or link. -/
theorem simpleCardLoop_valid (maxJobs : Nat) (cards : List SimpleCard) :
    ∀ count jobs, (∀ x ∈ jobs, minValidJob x = true) →
      ∀ x ∈ simpleCardLoop maxJobs cards count jobs, minValidJob x = true := by
  induction cards with
  | nil => intro count jobs hacc; simpa [simpleCardLoop] using hacc
  | cons card rest ih =>
    intro count jobs hacc x hmem
    simp only [simpleCardLoop] at hmem
    split at hmem
    · exact ih count jobs hacc x hmem
    · rename_i job heq
      split at hmem
      next hcond =>
        rw [Bool.and_eq_true, Bool.or_eq_true, Bool.or_eq_true,
          Bool.or_eq_true] at hcond
        have hjob : minValidJob job = true := by
          rcases hcond with ⟨ht, ((h1 | h2) | h3) | h4⟩
          · exact minValid_of_key _ "company" (by decide) ht h1
          · exact minValid_of_key _ "location" (by decide) ht h2
          · exact minValid_of_key _ "date" (by decide) ht h3
          · exact minValid_of_key _ "link" (by decide) ht h4
        have hacc2 : ∀ y ∈ jobs ++ [job], minValidJob y = true := by
          intro y hymem
          rcases List.mem_append.mp hymem with hm | hm
          · exact hacc y hm
          · rw [List.mem_singleton] at hm
            subst hm
            exact hjob
        split at hmem
        · exact hacc2 x hmem
        · exact ih (count + 1) (jobs ++ [job]) hacc2 x hmem
      next => exact ih count jobs hacc x hmem

/-- The URL loop of the simple foundit scraper preserves validity. -/
theorem simpleFounditUrlLoop_valid (maxJobs : Nat)
    (pages : List (Option (List SimpleCard))) :
    ∀ jobs, (∀ x ∈ jobs, minValidJob x = true) →
      ∀ x ∈ simpleFounditUrlLoop maxJobs pages jobs, minValidJob x = true := by
  induction pages with
  | nil => intro jobs _ x hm; simp [simpleFounditUrlLoop] at hm
  | cons page rest ih =>
    intro jobs hacc
    cases page with
    | none => exact ih jobs hacc
    | some cards =>
      intro x hmem
      simp only [simpleFounditUrlLoop] at hmem
      have h2 := simpleCardLoop_valid maxJobs (cards.take (maxJobs * 3)) 0 jobs hacc
      split at hmem
      · exact h2 x hmem
      · exact ih _ h2 x hmem

/-- C1 as amended: every JobRecord accepted by the HTML extraction and the
structured-data extraction of `JobExtractor`, and by the simple scraper's
foundit extraction, has a non-empty title and at least one other non-empty
field; the ultra-light scraper's foundit path does not enforce this (see the
counterexample). -/
theorem extraction_min_validity_enforced :
    (∀ (soup : HtmlSoup) (site : Option String) (maxJobs : Nat),
       ∀ j ∈ extractJobsFromHtml soup site maxJobs, minValidJob j = true) ∧
    (∀ (pages : List (Option (List SimpleCard))) (maxJobs : Nat),
       ∀ j ∈ simpleScrapeFoundit pages maxJobs, minValidJob j = true) := by
  constructor
  · exact extractJobsFromHtml_valid
  · intro pages maxJobs
    exact simpleFounditUrlLoop_valid maxJobs pages [] (by simp)

/-- C1 counterexample: a foundit page whose only content is a bare JSON-LD
`JobPosting` block makes the ultra-light scraper return one record with an
empty title, violating the minimum-validity invariant. -/
theorem ultra_foundit_empty_title_counterexample :
    (ultraScrapeFoundit "Pune" 5 (some ultraCounterPage)).all minValidJob = false ∧
    (ultraScrapeFoundit "Pune" 5 (some ultraCounterPage)).map
        (fun j => j.getD "title") = [""] := by
  refine ⟨by decide, by decide⟩

/-- Witness for C1 at concrete extraction inputs. -/
theorem extraction_min_validity_enforced_witness :
    (witnessHtmlJob ∈ extractJobsFromHtml witnessSoup (some "foundit.in") 5 ∧
      minValidJob witnessHtmlJob = true) ∧
    (witnessSimpleJob ∈ simpleScrapeFoundit witnessSimplePages 5 ∧
      minValidJob witnessSimpleJob = true) :=
  ⟨⟨by decide, extraction_min_validity_enforced.1 witnessSoup (some "foundit.in") 5
      witnessHtmlJob (by decide)⟩,
   ⟨by decide, extraction_min_validity_enforced.2 witnessSimplePages 5
      witnessSimpleJob (by decide)⟩⟩

/-- The search-term stage never empties a non-empty list. -/
theorem searchStage_preserves_ne_nil (s : String) (l : List Job) (h : l ≠ []) :
    searchStage s l ≠ [] := by
  simp only [searchStage]
  split
  · split
    next hne => simpa using hne
    next => exact h
  · exact h

/-- The location stage never empties a non-empty list. -/
theorem locationStage_preserves_ne_nil (loc : String) (l : List Job) (h : l ≠ []) :
    locationStage loc l ≠ [] := by
  simp only [locationStage]
  split
  · split
    next hne => simpa using hne
    next => exact h
  · exact h

/-- Taking `min count len` records of a non-empty list with a positive count
is non-empty. -/
theorem take_min_ne_nil (l : List Job) (count : Nat) (hc : 1 ≤ count)
    (h : l ≠ []) : l.take (min count l.length) ≠ [] := by
  cases l with
  | nil => exact absurd rfl h
  | cons a t =>
    intro hnil
    rw [List.take_eq_nil_iff] at hnil
    rcases hnil with hz | hz
    · have := List.length_cons a t
      omega
    · exact absurd hz (by simp)

/-- C10: in the static sample tier, when site-matching sample records exist
and at least one record is requested, the result is non-empty — the
search-term filter keeps the site-filtered list unchanged when no record
matches it, and the location filter is applied only when at least one record
matches it. -/
theorem sample_jobs_filters_never_empty (searchTerm location site : String)
    (count : Nat) (hcount : 1 ≤ count)
    (hsite : siteStage site SAMPLE_JOBS ≠ []) :
    getSampleJobs searchTerm location site count ≠ [] ∧
    ((siteStage site SAMPLE_JOBS).filter
        (sampleSearchMatch (pySplitWs searchTerm.pyLower)) = [] →
      searchStage searchTerm (siteStage site SAMPLE_JOBS)
        = siteStage site SAMPLE_JOBS) ∧
    (∀ l : List Job,
      l.filter (fun job => strIn location.pyLower (job.getD "location").pyLower)
          = [] →
        locationStage location l = l) := by
  refine ⟨?_, ?_, ?_⟩
  · unfold getSampleJobs
    apply take_min_ne_nil _ count hcount
    exact locationStage_preserves_ne_nil _ _
      (searchStage_preserves_ne_nil _ _ hsite)
  · intro hfil
    simp only [searchStage]
    split
    · rw [hfil]
      simp
    · rfl
  · intro l hfil
    simp only [locationStage]
    split
    · rw [hfil]
      simp
    · rfl

/-- Witness for C10: a search term and location matching nothing still leave
foundit sample records in the result. -/
theorem sample_jobs_filters_never_empty_witness :
    (1 ≤ 5 ∧ siteStage "foundit.in" SAMPLE_JOBS ≠ []) ∧
    getSampleJobs "quantum cryptographer" "atlantis" "foundit.in" 5 ≠ [] :=
  ⟨⟨by decide, by decide⟩,
   (sample_jobs_filters_never_empty "quantum cryptographer" "atlantis"
      "foundit.in" 5 (by decide) (by decide)).1⟩
